import Mathlib

set_option maxRecDepth 100000

/-!
# Embedded telemetry system: reliable delivery over UDP

A shallow embedding of `include/protocol.h`, `src/server.cpp` (the producer,
`TelemetryServer`) and `src/client.cpp` (the consumer, `TelemetryClient`).

* Machine integers are natural numbers reduced explicitly modulo `2 ^ w`.
* The two `__attribute__((packed))` structs are records of their fields; their
  object representation (what `sendto` transmits, what `recvfrom` overwrites and
  what `calculate_crc32` reads) is given by `bytes` and `ofBytes`.  The source
  performs no byte-order conversion on packet fields, so the representation
  depends on the byte order of the host, which is a parameter `ByteOrder`.
* The three `float` readings are carried as their 32-bit object representation;
  the protocol code never computes with them.
* Socket calls are answered by an explicit environment (the values the calls
  return) and leave an explicit record of what was called.  Both programs call
  `recvfrom` with a buffer of exactly the size of the struct and `flags = 0`: a
  longer datagram is cut to the buffer size, and the size tests of the programs
  see the number of bytes stored (`bytes_received`).
-/

namespace telemetry

/-! ## protocol.h -/

/-- Enumerators of `enum class PacketType : uint8_t`. -/
inductive PacketType
  | TELEMETRY
  | ACK
  | NAK
deriving DecidableEq, Repr

/-- The conversion `static_cast<uint8_t>(PacketType::X)`. -/
def PacketType.toUInt8 : PacketType → Nat
  | .TELEMETRY => 0x01
  | .ACK => 0x02
  | .NAK => 0x03

/-- The constant `TIMEOUT_MS`. -/
def TIMEOUT_MS : Nat := 1000

/-- The constant `MAX_RETRIES`. -/
def MAX_RETRIES : Nat := 3

/-- Byte order of the machine the program runs on.  Packet fields are copied to
and from the wire as they lie in memory. -/
inductive ByteOrder
  | little
  | big
deriving DecidableEq, Repr

/-- The `width` low-order bytes of `v`, least significant first. -/
def le_bytes : Nat → Nat → List Nat
  | 0, _ => []
  | width + 1, v => v % 256 :: le_bytes width (v / 256)

/-- The number whose base-256 digits, least significant first, are `bs`. -/
def le_value : List Nat → Nat
  | [] => 0
  | b :: bs => b + 256 * le_value bs

/-- Object representation of an unsigned integer of `width` bytes. -/
def store (bo : ByteOrder) (width v : Nat) : List Nat :=
  match bo with
  | .little => le_bytes width v
  | .big => (le_bytes width v).reverse

/-- Value of an unsigned integer read from its object representation. -/
def load (bo : ByteOrder) (bs : List Nat) : Nat :=
  match bo with
  | .little => le_value bs
  | .big => le_value bs.reverse

/-- The `width` bytes of `buf` starting at offset `off`. -/
def field (buf : List Nat) (off width : Nat) : List Nat :=
  (buf.drop off).take width

/-- The struct `TelemetryPacket` (packed: 1 + 2 + 4 + 4 + 4 + 4 + 4 bytes).
The sensor fields hold the bit patterns of the `float` values. -/
structure TelemetryPacket where
  type : Nat
  id : Nat
  timestamp : Nat
  sensor1 : Nat
  sensor2 : Nat
  sensor3 : Nat
  crc32 : Nat
deriving DecidableEq, Repr

/-- The struct `AckPacket` (packed: 1 + 2 + 4 bytes). -/
structure AckPacket where
  type : Nat
  ack_id : Nat
  crc32 : Nat
deriving DecidableEq, Repr

/-- The value of `sizeof(TelemetryPacket)`. -/
def TelemetryPacket.sizeof : Nat := 23

/-- The value of `sizeof(AckPacket)`. -/
def AckPacket.sizeof : Nat := 7

/-- The value of `sizeof(packet.crc32)`, a `uint32_t`. -/
def crc32_sizeof : Nat := 4

/-- Object representation of a `TelemetryPacket`: the fields in declaration
order without padding. -/
def TelemetryPacket.bytes (bo : ByteOrder) (p : TelemetryPacket) : List Nat :=
  store bo 1 p.type ++ store bo 2 p.id ++ store bo 4 p.timestamp ++
    store bo 4 p.sensor1 ++ store bo 4 p.sensor2 ++ store bo 4 p.sensor3 ++
    store bo 4 p.crc32

/-- The `TelemetryPacket` whose object representation is `buf`. -/
def TelemetryPacket.ofBytes (bo : ByteOrder) (buf : List Nat) : TelemetryPacket where
  type := load bo (field buf 0 1)
  id := load bo (field buf 1 2)
  timestamp := load bo (field buf 3 4)
  sensor1 := load bo (field buf 7 4)
  sensor2 := load bo (field buf 11 4)
  sensor3 := load bo (field buf 15 4)
  crc32 := load bo (field buf 19 4)

/-- Object representation of an `AckPacket`. -/
def AckPacket.bytes (bo : ByteOrder) (a : AckPacket) : List Nat :=
  store bo 1 a.type ++ store bo 2 a.ack_id ++ store bo 4 a.crc32

/-- The `AckPacket` whose object representation is `buf`. -/
def AckPacket.ofBytes (bo : ByteOrder) (buf : List Nat) : AckPacket where
  type := load bo (field buf 0 1)
  ack_id := load bo (field buf 1 2)
  crc32 := load bo (field buf 3 4)

/-- The reflected CRC-32 polynomial. -/
def CRC32_POLY : Nat := 0xEDB88320

/-- One shift of the CRC register: the low bit decides whether the polynomial
is folded in. -/
def crc32_shift (c : Nat) : Nat :=
  if c % 2 = 1 then (c / 2) ^^^ CRC32_POLY else c / 2

/-- The CRC register after one more data byte: the byte is folded into the low
eight bits and the register is shifted eight times. -/
def crc32_update (c b : Nat) : Nat :=
  crc32_shift^[8] (c ^^^ b)

/-- Modelled from the spec: `calculate_crc32` is declared in `protocol.h` but
its definition is not among the sources.  The spec describes it as the standard
CRC-32 of zlib and PNG (reflected polynomial `0xEDB88320`) over a byte span:
register preset to all ones, one `crc32_update` per byte, result complemented.
The argument is the span `data[0 .. length)`. -/
def calculate_crc32 (data : List Nat) : Nat :=
  data.foldl crc32_update 0xFFFFFFFF ^^^ 0xFFFFFFFF

/-! ## Sockets -/

/-- What one `recvfrom` call meets: a time-out or an error (`failed`, the call
returns a negative value), or a datagram whose payload is `data`, of any
length. -/
inductive Recv
  | failed
  | datagram (data : List Nat)
deriving DecidableEq, Repr

/-- The return value of `recvfrom(fd, buf, capacity, 0, ...)` on a datagram
socket when a datagram with payload `data` arrives: the call is made with
`flags = 0`, so a payload longer than the buffer is cut to its first `capacity`
bytes, the rest is discarded, and the number of bytes stored is returned. -/
def bytes_received (data : List Nat) (capacity : Nat) : Nat :=
  min data.length capacity

/-- The socket as the producer sees it during one delivery: the return value of
the `k`-th call (counted from 0) of `sendto` and of `setsockopt`, and the
outcome of the `k`-th `recvfrom`. -/
structure Transport where
  sendto : Nat → Int
  setsockopt : Nat → Int
  recvfrom : Nat → Recv

/-- Socket calls made so far by the producer: the buffers handed to `sendto`
(oldest first) and the numbers of `setsockopt` and `recvfrom` calls. -/
structure SocketLog where
  sent : List (List Nat)
  sockopts : Nat
  recvs : Nat
deriving DecidableEq, Repr

/-- No call made yet. -/
def SocketLog.empty : SocketLog := ⟨[], 0, 0⟩

/-! ## server.cpp -/

/-- The mutable protocol state of `class TelemetryServer`. -/
structure TelemetryServer where
  packet_counter_ : Nat
deriving DecidableEq, Repr

/-- The method `TelemetryServer::wait_for_ack`.  Console output is left out. -/
def TelemetryServer.wait_for_ack (bo : ByteOrder) (net : Transport) (io : SocketLog)
    (packet_id : Nat) : Bool × SocketLog :=
  let io1 := { io with sockopts := io.sockopts + 1 }
  if net.setsockopt io.sockopts < 0 then (false, io1)
  else
    let io2 := { io1 with recvs := io1.recvs + 1 }
    match net.recvfrom io.recvs with
    | .failed => (false, io2)
    | .datagram data =>
      if bytes_received data AckPacket.sizeof ≠ AckPacket.sizeof then (false, io2)
      else
        let ack_packet := AckPacket.ofBytes bo (data.take AckPacket.sizeof)
        let calculated_crc :=
          calculate_crc32 ((ack_packet.bytes bo).take (AckPacket.sizeof - crc32_sizeof))
        if calculated_crc ≠ ack_packet.crc32 then (false, io2)
        else if ack_packet.ack_id ≠ packet_id then (false, io2)
        else if ack_packet.type = PacketType.ACK.toUInt8 then (true, io2)
        else if ack_packet.type = PacketType.NAK.toUInt8 then (false, io2)
        else (false, io2)

/-- The `for` loop of `send_packet_with_retry`; the first argument is the
number of iterations still to run, `MAX_RETRIES - attempt`. -/
def TelemetryServer.retry_loop (bo : ByteOrder) (net : Transport) (packet : TelemetryPacket) :
    Nat → SocketLog → Bool × SocketLog
  | 0, io => (false, io)
  | remaining + 1, io =>
    let bytes_sent := net.sendto io.sent.length
    let io1 := { io with sent := io.sent ++ [packet.bytes bo] }
    if bytes_sent < 0 then retry_loop bo net packet remaining io1
    else
      match wait_for_ack bo net io1 packet.id with
      | (true, io2) => (true, io2)
      | (false, io2) => retry_loop bo net packet remaining io2

/-- The method `TelemetryServer::send_packet_with_retry`, started with no socket
call made: `true` is Delivered, `false` is Failed. -/
def TelemetryServer.send_packet_with_retry (bo : ByteOrder) (net : Transport)
    (packet : TelemetryPacket) : Bool × SocketLog :=
  retry_loop bo net packet MAX_RETRIES SocketLog.empty

/-- The method `TelemetryServer::generate_telemetry_packet`.  The clock reading
`ms_count` and the three readings drawn from the random distributions (as bit
patterns) are inputs. -/
def TelemetryServer.generate_telemetry_packet (bo : ByteOrder) (s : TelemetryServer)
    (ms_count r1 r2 r3 : Nat) : TelemetryPacket × TelemetryServer :=
  let packet : TelemetryPacket :=
    { type := PacketType.TELEMETRY.toUInt8
      id := s.packet_counter_
      timestamp := ms_count % 2 ^ 32
      sensor1 := r1
      sensor2 := r2
      sensor3 := r3
      crc32 := 0 }
  let crc := calculate_crc32 ((packet.bytes bo).take (TelemetryPacket.sizeof - crc32_sizeof))
  ({ packet with crc32 := crc }, { packet_counter_ := (s.packet_counter_ + 1) % 2 ^ 16 })

/-- One iteration of the loop of `TelemetryServer::run`: a packet is generated
and handed to `send_packet_with_retry` on the socket `net`.  The result is the
state after the iteration, the packet, and what the delivery returned.
Console output and the pause between packets are left out. -/
def TelemetryServer.run_iteration (bo : ByteOrder) (s : TelemetryServer) (net : Transport)
    (ms_count r1 r2 r3 : Nat) : TelemetryServer × TelemetryPacket × Bool :=
  let generated := generate_telemetry_packet bo s ms_count r1 r2 r3
  let delivered := send_packet_with_retry bo net generated.1
  (generated.2, generated.1, delivered.1)

/-! ## client.cpp -/

/-- The mutable protocol state of `class TelemetryClient`. -/
structure TelemetryClient where
  expected_packet_id_ : Nat
deriving DecidableEq, Repr

/-- What the consumer does that can be observed from outside: the lines it
writes to the console, the samples it hands to `process_telemetry`, and its
`sendto` calls with the bytes passed. -/
inductive Output
  | recv_error
  | wrong_size (bytes_received : Nat)
  | invalid_type (type : Nat)
  | crc_mismatch (calculated received : Nat)
  | duplicate (id expected : Nat)
  | telemetry (packet : TelemetryPacket)
  | sendto (data : List Nat)
  | ack_failed (packet_id : Nat)
  | nak_failed (packet_id : Nat)
  | nak_sent (packet_id : Nat)
deriving DecidableEq, Repr

/-- The method `TelemetryClient::validate_packet`, with the lines it writes. -/
def TelemetryClient.validate_packet (bo : ByteOrder) (c : TelemetryClient)
    (packet : TelemetryPacket) : Bool × List Output :=
  if packet.type ≠ PacketType.TELEMETRY.toUInt8 then
    (false, [Output.invalid_type packet.type])
  else
    let calculated_crc :=
      calculate_crc32 ((packet.bytes bo).take (TelemetryPacket.sizeof - crc32_sizeof))
    if calculated_crc ≠ packet.crc32 then
      (false, [Output.crc_mismatch calculated_crc packet.crc32])
    else if packet.id < c.expected_packet_id_ then
      (true, [Output.duplicate packet.id c.expected_packet_id_])
    else
      (true, [])

/-- The method `TelemetryClient::process_telemetry`: one line with the sample. -/
def TelemetryClient.process_telemetry (packet : TelemetryPacket) : List Output :=
  [Output.telemetry packet]

/-- The method `TelemetryClient::send_ack`; `bytes_sent` is what `sendto`
returns. -/
def TelemetryClient.send_ack (bo : ByteOrder) (bytes_sent : Int) (packet_id : Nat) :
    List Output :=
  let ack : AckPacket := { type := PacketType.ACK.toUInt8, ack_id := packet_id, crc32 := 0 }
  let ack : AckPacket :=
    { ack with crc32 := calculate_crc32 ((ack.bytes bo).take (AckPacket.sizeof - crc32_sizeof)) }
  Output.sendto (ack.bytes bo) :: (if bytes_sent < 0 then [Output.ack_failed packet_id] else [])

/-- The method `TelemetryClient::send_nak`; `bytes_sent` is what `sendto`
returns. -/
def TelemetryClient.send_nak (bo : ByteOrder) (bytes_sent : Int) (packet_id : Nat) :
    List Output :=
  let nak : AckPacket := { type := PacketType.NAK.toUInt8, ack_id := packet_id, crc32 := 0 }
  let nak : AckPacket :=
    { nak with crc32 := calculate_crc32 ((nak.bytes bo).take (AckPacket.sizeof - crc32_sizeof)) }
  Output.sendto (nak.bytes bo) ::
    (if bytes_sent < 0 then [Output.nak_failed packet_id] else [Output.nak_sent packet_id])

/-- What the socket gives the consumer in one iteration of its loop: the
outcome of `recvfrom`, the bytes the uninitialised local `packet` held before
the call, and the return value of the `sendto` made by `send_ack` or
`send_nak`. -/
structure Arrival where
  recv : Recv
  stale : List Nat
  bytes_sent : Int
deriving DecidableEq, Repr

/-- The local `packet` after `recvfrom`: the bytes stored, at most the 23 the
object has room for, overwrite its start, the rest keeps what it held. -/
def recv_buffer (data stale : List Nat) : List Nat :=
  (data ++ stale.drop data.length).take TelemetryPacket.sizeof

/-- One iteration of the loop of `TelemetryClient::run`: the state after it and
what it did, in order. -/
def TelemetryClient.run_iteration (bo : ByteOrder) (c : TelemetryClient) (a : Arrival) :
    TelemetryClient × List Output :=
  match a.recv with
  | .failed => (c, [Output.recv_error])
  | .datagram data =>
    let packet := TelemetryPacket.ofBytes bo (recv_buffer data a.stale)
    if bytes_received data TelemetryPacket.sizeof ≠ TelemetryPacket.sizeof then
      (c, Output.wrong_size (bytes_received data TelemetryPacket.sizeof) ::
        send_nak bo a.bytes_sent packet.id)
    else
      match validate_packet bo c packet with
      | (true, lines) =>
        ({ c with expected_packet_id_ := (packet.id + 1) % 2 ^ 16 },
          lines ++ process_telemetry packet ++ send_ack bo a.bytes_sent packet.id)
      | (false, lines) => (c, lines ++ send_nak bo a.bytes_sent packet.id)

/-- The loop of `TelemetryClient::run` over the arrivals `as`, oldest first. -/
def TelemetryClient.run (bo : ByteOrder) (c : TelemetryClient) :
    List Arrival → TelemetryClient × List Output
  | [] => (c, [])
  | a :: as =>
    let r := run_iteration bo c a
    let rest := run bo r.1 as
    (rest.1, r.2 ++ rest.2)

/-- The datagrams among the observable actions, oldest first. -/
def Output.datagrams : List Output → List (List Nat)
  | [] => []
  | Output.sendto data :: rest => data :: Output.datagrams rest
  | _ :: rest => Output.datagrams rest

/-- The samples handed to the sink, oldest first. -/
def Output.samples : List Output → List TelemetryPacket
  | [] => []
  | Output.telemetry packet :: rest => packet :: Output.samples rest
  | _ :: rest => Output.samples rest

/-- The datagram `d` with bit `k % 8` of byte `k / 8` inverted. -/
def flip_bit (d : List Nat) (k : Nat) : List Nat :=
  d.set (k / 8) (d.getD (k / 8) 0 ^^^ 2 ^ (k % 8))

/-! ## Vocabulary of the statements -/

/-- Every element of `d` is a byte. -/
def is_bytes (d : List Nat) : Prop := ∀ b ∈ d, b < 256

instance (d : List Nat) : Decidable (is_bytes d) := by
  unfold is_bytes; infer_instance

/-- The datagram `data` is a response of the fixed size (7 bytes) whose stored
checksum is the checksum of the 3 bytes before it, of kind `kind`, echoing the
sequence number `id`. -/
def is_response (bo : ByteOrder) (kind : PacketType) (id : Nat) (data : List Nat) : Prop :=
  data.length = AckPacket.sizeof ∧ is_bytes data ∧
    (AckPacket.ofBytes bo data).crc32 = calculate_crc32 (data.take 3) ∧
    (AckPacket.ofBytes bo data).type = kind.toUInt8 ∧
    (AckPacket.ofBytes bo data).ack_id = id

instance (bo : ByteOrder) (kind : PacketType) (id : Nat) (data : List Nat) :
    Decidable (is_response bo kind id data) := by
  unfold is_response; infer_instance

/-- The datagram `data` has the fixed size of a data packet (23 bytes). -/
def is_sized (data : List Nat) : Prop :=
  data.length = TelemetryPacket.sizeof ∧ is_bytes data

instance (data : List Nat) : Decidable (is_sized data) := by
  unfold is_sized; infer_instance

/-- The spec's validity of a sized data packet: its kind is DATA and its stored
checksum is the checksum of the 19 bytes before it. -/
def is_valid (bo : ByteOrder) (data : List Nat) : Prop :=
  (TelemetryPacket.ofBytes bo data).type = PacketType.TELEMETRY.toUInt8 ∧
    (TelemetryPacket.ofBytes bo data).crc32 = calculate_crc32 (data.take 19)

instance (bo : ByteOrder) (data : List Nat) : Decidable (is_valid bo data) := by
  unfold is_valid; infer_instance

/-- Network byte order as the spec words it for the wire format ("all
multi-byte integers big-endian"): the `width` low-order bytes of `v`, most
significant first. -/
def be_bytes (width v : Nat) : List Nat :=
  (le_bytes width v).reverse

/-! ## Sample inputs -/

/-- A data packet as `generate_telemetry_packet` builds it on a little-endian
host: sequence number 5, clock 1000, readings with bit patterns 3, 4 and 5. -/
def sample_packet : TelemetryPacket :=
  (TelemetryServer.generate_telemetry_packet ByteOrder.little ⟨5⟩ 1000 3 4 5).1

/-- The 23 bytes of a data packet with sequence number `id`, clock 1000 and
readings with bit patterns 3, 4 and 5, as built on a little-endian host. -/
def sample_datagram (id : Nat) : List Nat :=
  (TelemetryServer.generate_telemetry_packet ByteOrder.little ⟨id⟩ 1000 3 4 5).1.bytes
    ByteOrder.little

/-- The 7 bytes of the ACK for sequence number 5 on a little-endian host. -/
def sample_ack : List Nat := [2, 5, 0, 57, 249, 178, 129]

/-- The 7 bytes of the NAK for sequence number 5 on a little-endian host. -/
def sample_nak : List Nat := [3, 5, 0, 14, 147, 112, 128]

/-- A socket on which every call succeeds and the `k`-th `recvfrom` yields the
`k`-th datagram of `replies`, timing out once they are used up. -/
def scripted (replies : List (List Nat)) : Transport where
  sendto := fun _ => 23
  setsockopt := fun _ => 0
  recvfrom := fun k =>
    match replies.get? k with
    | some data => Recv.datagram data
    | none => Recv.failed

/-! ## Object representations -/

theorem le_bytes_length (n v : Nat) : (le_bytes n v).length = n := by
  induction n generalizing v with
  | zero => rfl
  | succ n ih => simp [le_bytes, ih]

theorem le_bytes_is_bytes (n v : Nat) : is_bytes (le_bytes n v) := by
  induction n generalizing v with
  | zero => intro b hb; simp [le_bytes] at hb
  | succ n ih =>
    intro b hb
    simp only [le_bytes, List.mem_cons] at hb
    rcases hb with rfl | hb
    · exact Nat.mod_lt _ (by norm_num)
    · exact ih _ b hb

theorem le_value_le_bytes (n v : Nat) : le_value (le_bytes n v) = v % 256 ^ n := by
  induction n generalizing v with
  | zero => simp [le_bytes, le_value, Nat.mod_one]
  | succ n ih => simp only [le_bytes, le_value, ih, pow_succ', Nat.mod_mul]

theorem le_bytes_le_value (bs : List Nat) (h : is_bytes bs) :
    le_bytes bs.length (le_value bs) = bs := by
  induction bs with
  | nil => rfl
  | cons b bs ih =>
    have hb : b < 256 := h b (List.mem_cons_self _ _)
    have hbs : is_bytes bs := fun x hx => h x (List.mem_cons_of_mem _ hx)
    have h1 : (b + 256 * le_value bs) % 256 = b := by omega
    have h2 : (b + 256 * le_value bs) / 256 = le_value bs := by omega
    simp only [List.length_cons, le_bytes, le_value, h1, h2, ih hbs]

theorem le_value_lt (bs : List Nat) (h : is_bytes bs) : le_value bs < 256 ^ bs.length := by
  induction bs with
  | nil => simp [le_value]
  | cons b bs ih =>
    have hb : b < 256 := h b (List.mem_cons_self _ _)
    have hbs : is_bytes bs := fun x hx => h x (List.mem_cons_of_mem _ hx)
    have := ih hbs
    simp only [le_value, List.length_cons, pow_succ]
    omega

theorem is_bytes_reverse (bs : List Nat) (h : is_bytes bs) : is_bytes bs.reverse :=
  fun b hb => h b (List.mem_reverse.mp hb)

theorem is_bytes_append (xs ys : List Nat) (hx : is_bytes xs) (hy : is_bytes ys) :
    is_bytes (xs ++ ys) := by
  intro b hb
  rcases List.mem_append.mp hb with h | h
  · exact hx b h
  · exact hy b h

theorem is_bytes_take (n : Nat) (bs : List Nat) (h : is_bytes bs) : is_bytes (bs.take n) :=
  fun b hb => h b (List.mem_of_mem_take hb)

theorem is_bytes_drop (n : Nat) (bs : List Nat) (h : is_bytes bs) : is_bytes (bs.drop n) :=
  fun b hb => h b (List.mem_of_mem_drop hb)

theorem store_length (bo : ByteOrder) (n v : Nat) : (store bo n v).length = n := by
  cases bo <;> simp [store, le_bytes_length]

theorem store_is_bytes (bo : ByteOrder) (n v : Nat) : is_bytes (store bo n v) := by
  cases bo
  · exact le_bytes_is_bytes n v
  · exact is_bytes_reverse _ (le_bytes_is_bytes n v)

theorem load_store (bo : ByteOrder) (n v : Nat) : load bo (store bo n v) = v % 256 ^ n := by
  cases bo <;> simp [store, load, le_value_le_bytes]

theorem store_load (bo : ByteOrder) (n : Nat) (bs : List Nat) (hn : bs.length = n)
    (h : is_bytes bs) : store bo n (load bo bs) = bs := by
  subst hn
  cases bo
  · exact le_bytes_le_value bs h
  · have := le_bytes_le_value bs.reverse (is_bytes_reverse bs h)
    simp only [List.length_reverse] at this
    simp [store, load, this]

theorem load_lt (bo : ByteOrder) (bs : List Nat) (h : is_bytes bs) :
    load bo bs < 256 ^ bs.length := by
  cases bo
  · exact le_value_lt bs h
  · have := le_value_lt bs.reverse (is_bytes_reverse bs h)
    simpa [load] using this

theorem load_injective (bo : ByteOrder) (xs ys : List Nat) (hlen : xs.length = ys.length)
    (hx : is_bytes xs) (hy : is_bytes ys) (h : load bo xs = load bo ys) : xs = ys := by
  rw [← store_load bo xs.length xs rfl hx, ← store_load bo xs.length ys hlen.symm hy, h]

theorem field_length (buf : List Nat) (off width : Nat) (h : off + width ≤ buf.length) :
    (field buf off width).length = width := by
  simp only [field, List.length_take, List.length_drop]
  omega

theorem field_is_bytes (buf : List Nat) (off width : Nat) (h : is_bytes buf) :
    is_bytes (field buf off width) :=
  is_bytes_take _ _ (is_bytes_drop _ _ h)

theorem bytes_received_eq_iff (data : List Nat) (capacity : Nat) :
    bytes_received data capacity = capacity ↔ capacity ≤ data.length := by
  unfold bytes_received
  omega

theorem bytes_received_of_lt (data : List Nat) (capacity : Nat) (h : data.length < capacity) :
    bytes_received data capacity = data.length := by
  unfold bytes_received
  omega

theorem AckPacket.ack_bytes_ofBytes (bo : ByteOrder) (data : List Nat)
    (hlen : data.length = AckPacket.sizeof) (h : is_bytes data) :
    (AckPacket.ofBytes bo data).bytes bo = data := by
  have hlen7 : data.length = 7 := hlen
  simp only [AckPacket.bytes, AckPacket.ofBytes]
  rw [store_load bo 1 _ (field_length _ _ _ (by omega)) (field_is_bytes _ _ _ h),
    store_load bo 2 _ (field_length _ _ _ (by omega)) (field_is_bytes _ _ _ h),
    store_load bo 4 _ (field_length _ _ _ (by omega)) (field_is_bytes _ _ _ h)]
  have e : data.take 7 = data := List.take_of_length_le (by omega)
  have e1 := List.take_add data 3 4
  have e2 := List.take_add data 1 2
  simp only [field, List.drop_zero]
  simp only [show 3 + 4 = 7 from rfl, show 1 + 2 = 3 from rfl] at e1 e2
  rw [← e2, ← e1, e]

theorem TelemetryPacket.packet_bytes_ofBytes (bo : ByteOrder) (data : List Nat)
    (hlen : data.length = TelemetryPacket.sizeof) (h : is_bytes data) :
    (TelemetryPacket.ofBytes bo data).bytes bo = data := by
  have hlen23 : data.length = 23 := hlen
  simp only [TelemetryPacket.bytes, TelemetryPacket.ofBytes]
  rw [store_load bo 1 _ (field_length _ _ _ (by omega)) (field_is_bytes _ _ _ h),
    store_load bo 2 _ (field_length _ _ _ (by omega)) (field_is_bytes _ _ _ h),
    store_load bo 4 _ (field_length _ _ _ (by omega)) (field_is_bytes _ _ _ h),
    store_load bo 4 _ (field_length _ _ _ (by omega)) (field_is_bytes _ _ _ h),
    store_load bo 4 _ (field_length _ _ _ (by omega)) (field_is_bytes _ _ _ h),
    store_load bo 4 _ (field_length _ _ _ (by omega)) (field_is_bytes _ _ _ h),
    store_load bo 4 _ (field_length _ _ _ (by omega)) (field_is_bytes _ _ _ h)]
  have e : data.take 23 = data := List.take_of_length_le (by omega)
  have e1 := List.take_add data 1 2
  have e2 := List.take_add data 3 4
  have e3 := List.take_add data 7 4
  have e4 := List.take_add data 11 4
  have e5 := List.take_add data 15 4
  have e6 := List.take_add data 19 4
  simp only [field, List.drop_zero]
  simp only [show 1 + 2 = 3 from rfl, show 3 + 4 = 7 from rfl, show 7 + 4 = 11 from rfl,
    show 11 + 4 = 15 from rfl, show 15 + 4 = 19 from rfl, show 19 + 4 = 23 from rfl]
    at e1 e2 e3 e4 e5 e6
  rw [← e1, ← e2, ← e3, ← e4, ← e5, ← e6, e]

/-! ## The checksum -/

theorem crc32_shift_lt (c : Nat) (h : c < 2 ^ 32) : crc32_shift c < 2 ^ 32 := by
  unfold crc32_shift
  split
  · exact Nat.xor_lt_two_pow (by omega) (by norm_num [CRC32_POLY])
  · omega

theorem crc32_shift_top (c : Nat) (h : c < 2 ^ 32) : 2 ^ 31 ≤ crc32_shift c ↔ c % 2 = 1 := by
  unfold crc32_shift
  have hhalf : c / 2 < 2 ^ 31 := by omega
  split
  · rename_i hodd
    refine ⟨fun _ => hodd, fun _ => ?_⟩
    apply Nat.testBit_implies_ge
    rw [Nat.testBit_xor, Nat.testBit_lt_two_pow hhalf]
    decide
  · rename_i heven
    constructor
    · intro hge; omega
    · intro hodd; exact absurd hodd heven

theorem crc32_shift_injective (a b : Nat) (ha : a < 2 ^ 32) (hb : b < 2 ^ 32)
    (h : crc32_shift a = crc32_shift b) : a = b := by
  have hpar : a % 2 = 1 ↔ b % 2 = 1 := by
    rw [← crc32_shift_top a ha, ← crc32_shift_top b hb, h]
  unfold crc32_shift at h
  by_cases hodd : a % 2 = 1
  · have hodd' := hpar.mp hodd
    rw [if_pos hodd, if_pos hodd'] at h
    have := Nat.xor_left_inj.mp h
    omega
  · have hodd' : ¬ b % 2 = 1 := fun hb' => hodd (hpar.mpr hb')
    rw [if_neg hodd, if_neg hodd'] at h
    omega

theorem crc32_shift_iterate_lt (n c : Nat) (h : c < 2 ^ 32) : crc32_shift^[n] c < 2 ^ 32 := by
  induction n with
  | zero => simpa using h
  | succ n ih =>
    rw [Function.iterate_succ_apply']
    exact crc32_shift_lt _ ih

theorem crc32_shift_iterate_injective (n a b : Nat) (ha : a < 2 ^ 32) (hb : b < 2 ^ 32)
    (h : crc32_shift^[n] a = crc32_shift^[n] b) : a = b := by
  induction n with
  | zero => simpa using h
  | succ n ih =>
    rw [Function.iterate_succ_apply', Function.iterate_succ_apply'] at h
    exact ih (crc32_shift_injective _ _ (crc32_shift_iterate_lt n a ha)
      (crc32_shift_iterate_lt n b hb) h)

theorem crc32_fold_byte_lt (c b : Nat) (hc : c < 2 ^ 32) (hb : b < 256) : c ^^^ b < 2 ^ 32 :=
  Nat.xor_lt_two_pow hc (by omega)

theorem crc32_update_lt (c b : Nat) (hc : c < 2 ^ 32) (hb : b < 256) :
    crc32_update c b < 2 ^ 32 :=
  crc32_shift_iterate_lt 8 _ (crc32_fold_byte_lt c b hc hb)

theorem crc32_update_register_injective (c c' b : Nat) (hc : c < 2 ^ 32) (hc' : c' < 2 ^ 32)
    (hb : b < 256) (h : crc32_update c b = crc32_update c' b) : c = c' :=
  Nat.xor_left_inj.mp (crc32_shift_iterate_injective 8 _ _ (crc32_fold_byte_lt c b hc hb)
    (crc32_fold_byte_lt c' b hc' hb) h)

theorem crc32_update_byte_injective (c b b' : Nat) (hc : c < 2 ^ 32) (hb : b < 256)
    (hb' : b' < 256) (h : crc32_update c b = crc32_update c b') : b = b' :=
  Nat.xor_right_inj.mp (crc32_shift_iterate_injective 8 _ _ (crc32_fold_byte_lt c b hc hb)
    (crc32_fold_byte_lt c b' hc hb') h)

theorem crc32_foldl_lt (data : List Nat) (c : Nat) (hc : c < 2 ^ 32) (hd : is_bytes data) :
    data.foldl crc32_update c < 2 ^ 32 := by
  induction data generalizing c with
  | nil => simpa using hc
  | cons b bs ih =>
    rw [List.foldl_cons]
    exact ih _ (crc32_update_lt c b hc (hd b (List.mem_cons_self _ _)))
      (fun x hx => hd x (List.mem_cons_of_mem _ hx))

theorem crc32_foldl_injective (data : List Nat) (c c' : Nat) (hc : c < 2 ^ 32)
    (hc' : c' < 2 ^ 32) (hd : is_bytes data)
    (h : data.foldl crc32_update c = data.foldl crc32_update c') : c = c' := by
  induction data generalizing c c' with
  | nil => simpa using h
  | cons b bs ih =>
    have hb : b < 256 := hd b (List.mem_cons_self _ _)
    rw [List.foldl_cons, List.foldl_cons] at h
    exact crc32_update_register_injective c c' b hc hc' hb
      (ih _ _ (crc32_update_lt c b hc hb) (crc32_update_lt c' b hc' hb)
        (fun x hx => hd x (List.mem_cons_of_mem _ hx)) h)

theorem calculate_crc32_lt (data : List Nat) (hd : is_bytes data) :
    calculate_crc32 data < 2 ^ 32 :=
  Nat.xor_lt_two_pow (crc32_foldl_lt data _ (by norm_num) hd) (by norm_num)

/-- Two byte strings that differ in exactly one byte have different checksums. -/
theorem calculate_crc32_one_byte (front back : List Nat) (x y : Nat)
    (hf : is_bytes front) (hb : is_bytes back) (hx : x < 256) (hy : y < 256)
    (h : calculate_crc32 (front ++ x :: back) = calculate_crc32 (front ++ y :: back)) :
    x = y := by
  unfold calculate_crc32 at h
  have h1 := Nat.xor_left_inj.mp h
  rw [List.foldl_append, List.foldl_append, List.foldl_cons, List.foldl_cons] at h1
  have hreg : front.foldl crc32_update 0xFFFFFFFF < 2 ^ 32 :=
    crc32_foldl_lt front _ (by norm_num) hf
  exact crc32_update_byte_injective _ x y hreg hx hy
    (crc32_foldl_injective back _ _ (crc32_update_lt _ x hreg hx)
      (crc32_update_lt _ y hreg hy) hb h1)

theorem calculate_crc32_set_ne (data : List Nat) (i y : Nat) (hd : is_bytes data)
    (hi : i < data.length) (hy : y < 256) (hne : y ≠ data.getD i 0) :
    calculate_crc32 (data.set i y) ≠ calculate_crc32 data := by
  intro h
  have hx : data.getD i 0 = data[i] := List.getD_eq_getElem _ _ hi
  have hsplit : data = data.take i ++ data[i] :: data.drop (i + 1) := by
    rw [← List.drop_eq_getElem_cons hi, List.take_append_drop]
  have hset : data.set i y = data.take i ++ y :: data.drop (i + 1) := by
    rw [List.set_eq_take_append_cons_drop, if_pos hi]
  have hbyte : data[i] < 256 := hd _ (List.getElem_mem hi)
  have h' : calculate_crc32 (data.take i ++ y :: data.drop (i + 1)) =
      calculate_crc32 (data.take i ++ data[i] :: data.drop (i + 1)) := by
    rw [← hset, ← hsplit]; exact h
  have := calculate_crc32_one_byte _ _ y data[i] (is_bytes_take i data hd)
    (is_bytes_drop (i + 1) data hd) hy hbyte h'
  exact hne (this.trans hx.symm)

/-! ## Responses built by the consumer -/

theorem field_layout3 (s1 s2 s3 : List Nat) (h1 : s1.length = 1) (h2 : s2.length = 2)
    (h3 : s3.length = 4) :
    field (s1 ++ s2 ++ s3) 0 1 = s1 ∧ field (s1 ++ s2 ++ s3) 1 2 = s2 ∧
      field (s1 ++ s2 ++ s3) 3 4 = s3 ∧ (s1 ++ s2 ++ s3).take 3 = s1 ++ s2 := by
  obtain ⟨a, rfl⟩ := List.length_eq_one.mp h1
  obtain ⟨b, c, rfl⟩ := List.length_eq_two.mp h2
  refine ⟨rfl, rfl, ?_, rfl⟩
  simp only [field, List.singleton_append, List.cons_append, List.nil_append, List.drop_succ_cons,
    List.drop_zero]
  exact List.take_of_length_le (by omega)

theorem response_is_response (bo : ByteOrder) (kind : PacketType) (packet_id : Nat)
    (hid : packet_id < 2 ^ 16) :
    is_response bo kind packet_id
      (AckPacket.bytes bo
        { type := kind.toUInt8, ack_id := packet_id,
          crc32 := calculate_crc32
            ((AckPacket.bytes bo { type := kind.toUInt8, ack_id := packet_id, crc32 := 0 }).take
              (AckPacket.sizeof - crc32_sizeof)) }) := by
  have hkind : kind.toUInt8 < 256 := by cases kind <;> simp [PacketType.toUInt8]
  have lay : ∀ crc : Nat, _ := fun crc =>
    field_layout3 (store bo 1 kind.toUInt8) (store bo 2 packet_id) (store bo 4 crc)
      (store_length _ _ _) (store_length _ _ _) (store_length _ _ _)
  have hpre : ∀ crc : Nat, (AckPacket.bytes bo
      { type := kind.toUInt8, ack_id := packet_id, crc32 := crc }).take 3 =
      store bo 1 kind.toUInt8 ++ store bo 2 packet_id := fun crc => (lay crc).2.2.2
  have hlt : calculate_crc32 (store bo 1 kind.toUInt8 ++ store bo 2 packet_id) < 2 ^ 32 :=
    calculate_crc32_lt _ (is_bytes_append _ _ (store_is_bytes _ _ _) (store_is_bytes _ _ _))
  have h3 : AckPacket.sizeof - crc32_sizeof = 3 := rfl
  rw [h3, hpre 0]
  obtain ⟨l1, l2, l3, l4⟩ := lay (calculate_crc32 (store bo 1 kind.toUInt8 ++ store bo 2 packet_id))
  refine ⟨?_, ?_, ?_, ?_, ?_⟩
  · simp [AckPacket.bytes, store_length, AckPacket.sizeof]
  · exact is_bytes_append _ _ (is_bytes_append _ _ (store_is_bytes _ _ _) (store_is_bytes _ _ _))
      (store_is_bytes _ _ _)
  · simp only [AckPacket.ofBytes, AckPacket.bytes, l3, l4, load_store]
    exact Nat.mod_eq_of_lt (by simpa using hlt)
  · simp only [AckPacket.ofBytes, AckPacket.bytes, l1, load_store]
    exact Nat.mod_eq_of_lt (by simpa using hkind)
  · simp only [AckPacket.ofBytes, AckPacket.bytes, l2, load_store]
    exact Nat.mod_eq_of_lt (by simpa using hid)

theorem TelemetryClient.send_ack_datagrams (bo : ByteOrder) (bytes_sent : Int)
    (packet_id : Nat) (hid : packet_id < 2 ^ 16) :
    ∃ resp, Output.datagrams (send_ack bo bytes_sent packet_id) = [resp] ∧
      is_response bo PacketType.ACK packet_id resp := by
  refine ⟨_, ?_, response_is_response bo PacketType.ACK packet_id hid⟩
  unfold send_ack
  split <;> rfl

theorem TelemetryClient.send_nak_datagrams (bo : ByteOrder) (bytes_sent : Int)
    (packet_id : Nat) (hid : packet_id < 2 ^ 16) :
    ∃ resp, Output.datagrams (send_nak bo bytes_sent packet_id) = [resp] ∧
      is_response bo PacketType.NAK packet_id resp := by
  refine ⟨_, ?_, response_is_response bo PacketType.NAK packet_id hid⟩
  unfold send_nak
  split <;> rfl

theorem TelemetryClient.send_nak_samples (bo : ByteOrder) (bytes_sent : Int)
    (packet_id : Nat) : Output.samples (send_nak bo bytes_sent packet_id) = [] := by
  unfold send_nak
  split <;> rfl

theorem TelemetryPacket.ofBytes_id_lt (bo : ByteOrder) (data : List Nat) (h : is_sized data) :
    (TelemetryPacket.ofBytes bo data).id < 2 ^ 16 := by
  have hl : data.length = 23 := h.1
  have := load_lt bo (field data 1 2) (field_is_bytes _ _ _ h.2)
  rw [field_length _ _ _ (by omega)] at this
  exact this

/-! ## The consumer -/

theorem recv_buffer_sized (data stale : List Nat) (h : data.length = TelemetryPacket.sizeof) :
    recv_buffer data stale = data := by
  unfold recv_buffer
  rw [List.take_append_of_le_length (by omega)]
  exact List.take_of_length_le (by omega)

/-- One iteration on a datagram of the right size, case by case. -/
theorem TelemetryClient.run_iteration_sized (bo : ByteOrder) (c : TelemetryClient)
    (data stale : List Nat) (bytes_sent : Int) (h : is_sized data) :
    run_iteration bo c ⟨Recv.datagram data, stale, bytes_sent⟩ =
      if (TelemetryPacket.ofBytes bo data).type ≠ PacketType.TELEMETRY.toUInt8 then
        (c, Output.invalid_type (TelemetryPacket.ofBytes bo data).type ::
          send_nak bo bytes_sent (TelemetryPacket.ofBytes bo data).id)
      else if calculate_crc32 (data.take 19) ≠ (TelemetryPacket.ofBytes bo data).crc32 then
        (c, Output.crc_mismatch (calculate_crc32 (data.take 19))
            (TelemetryPacket.ofBytes bo data).crc32 ::
          send_nak bo bytes_sent (TelemetryPacket.ofBytes bo data).id)
      else
        (⟨((TelemetryPacket.ofBytes bo data).id + 1) % 2 ^ 16⟩,
          (if (TelemetryPacket.ofBytes bo data).id < c.expected_packet_id_ then
              [Output.duplicate (TelemetryPacket.ofBytes bo data).id c.expected_packet_id_]
            else []) ++
            Output.telemetry (TelemetryPacket.ofBytes bo data) ::
              send_ack bo bytes_sent (TelemetryPacket.ofBytes bo data).id) := by
  have hrt := TelemetryPacket.packet_bytes_ofBytes bo data h.1 h.2
  have h19 : TelemetryPacket.sizeof - crc32_sizeof = 19 := rfl
  have hbr : bytes_received data TelemetryPacket.sizeof = TelemetryPacket.sizeof :=
    (bytes_received_eq_iff _ _).mpr (le_of_eq h.1.symm)
  simp only [run_iteration, recv_buffer_sized data stale h.1, hbr, ne_eq, not_true_eq_false,
    if_false, validate_packet, hrt, h19, process_telemetry]
  by_cases hty : (TelemetryPacket.ofBytes bo data).type = PacketType.TELEMETRY.toUInt8
  · by_cases hcrc : calculate_crc32 (data.take 19) = (TelemetryPacket.ofBytes bo data).crc32
    · by_cases hdup : (TelemetryPacket.ofBytes bo data).id < c.expected_packet_id_
      · simp [hty, hcrc, hdup]
      · simp [hty, hcrc, hdup]
    · simp [hty, hcrc]
  · simp [hty]

theorem Output.datagrams_append (xs ys : List Output) :
    Output.datagrams (xs ++ ys) = Output.datagrams xs ++ Output.datagrams ys := by
  induction xs with
  | nil => rfl
  | cons x xs ih => cases x <;> simp [Output.datagrams, ih]

/-- The one response to a datagram of the right size: an ACK when the packet is
valid, a NAK when it is not, echoing the `id` read from the datagram. -/
theorem TelemetryClient.run_iteration_response (bo : ByteOrder) (c : TelemetryClient)
    (data stale : List Nat) (bytes_sent : Int) (h : is_sized data) :
    ∃ resp,
      Output.datagrams (run_iteration bo c ⟨Recv.datagram data, stale, bytes_sent⟩).2 = [resp] ∧
        is_response bo (if is_valid bo data then PacketType.ACK else PacketType.NAK)
          (TelemetryPacket.ofBytes bo data).id resp := by
  have hid := TelemetryPacket.ofBytes_id_lt bo data h
  rw [run_iteration_sized bo c data stale bytes_sent h]
  by_cases hty : (TelemetryPacket.ofBytes bo data).type = PacketType.TELEMETRY.toUInt8
  · by_cases hcrc : calculate_crc32 (data.take 19) = (TelemetryPacket.ofBytes bo data).crc32
    · have hv : is_valid bo data := ⟨hty, hcrc.symm⟩
      obtain ⟨resp, h1, h2⟩ := send_ack_datagrams bo bytes_sent _ hid
      refine ⟨resp, ?_, by simpa [hv] using h2⟩
      simp only [ne_eq, hty, not_true_eq_false, if_false, hcrc]
      rw [Output.datagrams_append]
      split <;> simpa [Output.datagrams] using h1
    · have hv : ¬ is_valid bo data := fun hv => hcrc hv.2.symm
      obtain ⟨resp, h1, h2⟩ := send_nak_datagrams bo bytes_sent _ hid
      refine ⟨resp, ?_, by simpa [hv] using h2⟩
      simpa [hty, hcrc, Output.datagrams] using h1
  · have hv : ¬ is_valid bo data := fun hv => hty hv.1
    obtain ⟨resp, h1, h2⟩ := send_nak_datagrams bo bytes_sent _ hid
    refine ⟨resp, ?_, by simpa [hv] using h2⟩
    simpa [hty, Output.datagrams] using h1

theorem TelemetryClient.run_iteration_valid (bo : ByteOrder) (c : TelemetryClient)
    (data stale : List Nat) (bytes_sent : Int) (h : is_sized data) (hv : is_valid bo data) :
    run_iteration bo c ⟨Recv.datagram data, stale, bytes_sent⟩ =
      (⟨((TelemetryPacket.ofBytes bo data).id + 1) % 2 ^ 16⟩,
        (if (TelemetryPacket.ofBytes bo data).id < c.expected_packet_id_ then
            [Output.duplicate (TelemetryPacket.ofBytes bo data).id c.expected_packet_id_]
          else []) ++
          Output.telemetry (TelemetryPacket.ofBytes bo data) ::
            send_ack bo bytes_sent (TelemetryPacket.ofBytes bo data).id) := by
  rw [run_iteration_sized bo c data stale bytes_sent h]
  simp [hv.1, hv.2]

theorem TelemetryClient.run_iteration_wrong_type (bo : ByteOrder) (c : TelemetryClient)
    (data stale : List Nat) (bytes_sent : Int) (h : is_sized data)
    (hty : (TelemetryPacket.ofBytes bo data).type ≠ PacketType.TELEMETRY.toUInt8) :
    run_iteration bo c ⟨Recv.datagram data, stale, bytes_sent⟩ =
      (c, Output.invalid_type (TelemetryPacket.ofBytes bo data).type ::
        send_nak bo bytes_sent (TelemetryPacket.ofBytes bo data).id) := by
  rw [run_iteration_sized bo c data stale bytes_sent h, if_pos hty]

theorem TelemetryClient.run_iteration_bad_crc (bo : ByteOrder) (c : TelemetryClient)
    (data stale : List Nat) (bytes_sent : Int) (h : is_sized data)
    (hty : (TelemetryPacket.ofBytes bo data).type = PacketType.TELEMETRY.toUInt8)
    (hcrc : calculate_crc32 (data.take 19) ≠ (TelemetryPacket.ofBytes bo data).crc32) :
    run_iteration bo c ⟨Recv.datagram data, stale, bytes_sent⟩ =
      (c, Output.crc_mismatch (calculate_crc32 (data.take 19))
          (TelemetryPacket.ofBytes bo data).crc32 ::
        send_nak bo bytes_sent (TelemetryPacket.ofBytes bo data).id) := by
  rw [run_iteration_sized bo c data stale bytes_sent h, if_neg (not_not.mpr hty), if_pos hcrc]

theorem TelemetryClient.run_iteration_wrong_size (bo : ByteOrder) (c : TelemetryClient)
    (data stale : List Nat) (bytes_sent : Int) (hlen : data.length < TelemetryPacket.sizeof) :
    run_iteration bo c ⟨Recv.datagram data, stale, bytes_sent⟩ =
      (c, Output.wrong_size data.length ::
        send_nak bo bytes_sent (TelemetryPacket.ofBytes bo (recv_buffer data stale)).id) := by
  have hbr := bytes_received_of_lt data TelemetryPacket.sizeof hlen
  have hne : ¬ data.length = TelemetryPacket.sizeof := by omega
  simp [run_iteration, hbr, hne]

theorem load_kind (bo : ByteOrder) (d : List Nat) : load bo (field d 0 1) = d.getD 0 0 := by
  cases d <;> cases bo <;> simp [field, load, le_value]

theorem set_take_of_le (d : List Nat) (i n y : Nat) (h : n ≤ i) :
    (d.set i y).take n = d.take n := by
  rw [List.set_take, List.set_eq_of_length_le]
  simp only [List.length_take]
  omega

theorem getD_of_set_eq (l : List Nat) (j y : Nat) (hj : j < l.length) (h : l.set j y = l) :
    l.getD j 0 = y := by
  have := congrArg (fun m => m.getD j 0) h
  simp only [List.getD_eq_getElem?_getD, List.getElem?_set_self hj] at this
  simpa using this.symm

theorem flipped_byte (x j : Nat) (hx : x < 256) (hj : j < 8) :
    x ^^^ 2 ^ j < 256 ∧ x ^^^ 2 ^ j ≠ x := by
  constructor
  · exact Nat.xor_lt_two_pow (n := 8) hx (Nat.pow_lt_pow_right (by norm_num) hj)
  · intro h
    have h2 : x ^^^ 2 ^ j = x ^^^ 0 := by simpa using h
    have := Nat.xor_right_inj.mp h2
    exact absurd this (by positivity)

theorem getD_lt (d : List Nat) (i : Nat) (h : is_bytes d) : d.getD i 0 < 256 := by
  by_cases hi : i < d.length
  · rw [List.getD_eq_getElem _ _ hi]
    exact h _ (List.getElem_mem hi)
  · rw [List.getD_eq_default _ _ (by omega)]
    norm_num

theorem flip_bit_sized (d : List Nat) (k : Nat) (hs : is_sized d) :
    is_sized (flip_bit d k) := by
  refine ⟨by simpa [flip_bit] using hs.1, ?_⟩
  intro b hb
  rcases List.mem_or_eq_of_mem_set hb with h | h
  · exact hs.2 b h
  · rw [h]
    exact (flipped_byte _ _ (getD_lt d _ hs.2) (Nat.mod_lt _ (by norm_num))).1

theorem flip_bit_kind (bo : ByteOrder) (d : List Nat) (k : Nat) (hs : is_sized d)
    (hv : is_valid bo d) (hk : k < 8) :
    (TelemetryPacket.ofBytes bo (flip_bit d k)).type ≠ PacketType.TELEMETRY.toUInt8 := by
  have hlen : d.length = 23 := hs.1
  have h0 : k / 8 = 0 := by omega
  have hty : d.getD 0 0 = PacketType.TELEMETRY.toUInt8 := by
    rw [← load_kind bo d]; exact hv.1
  have hx := (flipped_byte (d.getD 0 0) (k % 8) (getD_lt d 0 hs.2)
    (Nat.mod_lt _ (by norm_num))).2
  show load bo (field (flip_bit d k) 0 1) ≠ _
  rw [load_kind, flip_bit, h0]
  have : (d.set 0 (d.getD 0 0 ^^^ 2 ^ (k % 8))).getD 0 0 = d.getD 0 0 ^^^ 2 ^ (k % 8) := by
    simp only [List.getD_eq_getElem?_getD]
    rw [List.getElem?_set_self (by omega)]
    rfl
  rw [this, ← hty]
  exact hx

theorem flip_bit_checksum (bo : ByteOrder) (d : List Nat) (k : Nat) (hs : is_sized d)
    (hv : is_valid bo d) (hk8 : 8 ≤ k) (hk : k < 184) :
    (TelemetryPacket.ofBytes bo (flip_bit d k)).type = PacketType.TELEMETRY.toUInt8 ∧
      calculate_crc32 ((flip_bit d k).take 19) ≠
        (TelemetryPacket.ofBytes bo (flip_bit d k)).crc32 := by
  have hlen : d.length = 23 := hs.1
  have hi1 : 1 ≤ k / 8 := by omega
  have hi23 : k / 8 < 23 := by omega
  obtain ⟨hy, hne⟩ := flipped_byte (d.getD (k / 8) 0) (k % 8) (getD_lt d _ hs.2)
    (Nat.mod_lt _ (by norm_num))
  have hcrc : load bo (field d 19 4) = calculate_crc32 (d.take 19) := hv.2
  constructor
  · show load bo (field (flip_bit d k) 0 1) = _
    have : field (flip_bit d k) 0 1 = field d 0 1 := by
      simp only [field, flip_bit, List.drop_zero]
      exact set_take_of_le d _ 1 _ hi1
    rw [this]
    exact hv.1
  · show _ ≠ load bo (field (flip_bit d k) 19 4)
    by_cases hi : k / 8 < 19
    · have hf : field (flip_bit d k) 19 4 = field d 19 4 := by
        simp only [field, flip_bit]
        rw [List.drop_set_of_lt _ _ hi]
      have ht : (flip_bit d k).take 19 =
          (d.take 19).set (k / 8) (d.getD (k / 8) 0 ^^^ 2 ^ (k % 8)) := by
        simp only [flip_bit, List.set_take]
      have hg : (d.take 19).getD (k / 8) 0 = d.getD (k / 8) 0 := by
        simp [List.getD_eq_getElem?_getD, List.getElem?_take, hi]
      rw [hf, hcrc, ht]
      exact calculate_crc32_set_ne (d.take 19) _ _ (is_bytes_take 19 d hs.2)
        (by simp only [List.length_take]; omega) hy (by rw [hg]; exact hne)
    · have ht : (flip_bit d k).take 19 = d.take 19 := by
        simp only [flip_bit]
        exact set_take_of_le d _ 19 _ (by omega)
      have hf : field (flip_bit d k) 19 4 =
          (field d 19 4).set (k / 8 - 19) (d.getD (k / 8) 0 ^^^ 2 ^ (k % 8)) := by
        simp only [field, flip_bit]
        rw [List.drop_set, if_neg hi, List.set_take]
      have hfl : (field d 19 4).length = 4 := field_length d 19 4 (by omega)
      have hg : (field d 19 4).getD (k / 8 - 19) 0 = d.getD (k / 8) 0 := by
        have e : 19 + (k / 8 - 19) = k / 8 := by omega
        have hlt : k / 8 - 19 < 4 := by omega
        simp [field, List.getD_eq_getElem?_getD, List.getElem?_take, List.getElem?_drop, e, hlt]
      rw [ht, ← hcrc, hf]
      intro heq
      have hsame := load_injective bo _ _ (by simp only [List.length_set]) (field_is_bytes d 19 4 hs.2)
        (by
          intro b hb
          rcases List.mem_or_eq_of_mem_set hb with h | h
          · exact field_is_bytes d 19 4 hs.2 b h
          · rw [h]; exact hy) heq
      have := getD_of_set_eq (field d 19 4) _ _ (by omega) hsame.symm
      rw [hg] at this
      exact hne this.symm

/-! ## The producer -/

theorem TelemetryServer.wait_for_ack_sent (bo : ByteOrder) (net : Transport) (io : SocketLog)
    (packet_id : Nat) : (wait_for_ack bo net io packet_id).2.sent = io.sent := by
  unfold wait_for_ack
  by_cases hso : net.setsockopt io.sockopts < 0
  · simp [hso]
  · cases hr : net.recvfrom io.recvs with
    | failed => simp [hso]
    | datagram data =>
      simp only [hso, if_false]
      repeat' split
      all_goals rfl

theorem TelemetryServer.wait_for_ack_true_iff (bo : ByteOrder) (net : Transport)
    (io : SocketLog) (packet_id : Nat)
    (hbytes : ∀ data, net.recvfrom io.recvs = Recv.datagram data → is_bytes data) :
    (wait_for_ack bo net io packet_id).1 = true ↔
      0 ≤ net.setsockopt io.sockopts ∧
        ∃ data, net.recvfrom io.recvs = Recv.datagram data ∧
          is_response bo PacketType.ACK packet_id (data.take 7) := by
  unfold wait_for_ack
  by_cases hso : net.setsockopt io.sockopts < 0
  · have : ¬ 0 ≤ net.setsockopt io.sockopts := by omega
    simp [hso, this]
  · have hso' : 0 ≤ net.setsockopt io.sockopts := by omega
    cases hr : net.recvfrom io.recvs with
    | failed => simp [hso]
    | datagram data =>
      have hb := is_bytes_take 7 data (hbytes data hr)
      have h7 : AckPacket.sizeof = 7 := rfl
      by_cases hlen : 7 ≤ data.length
      · have hbr : bytes_received data AckPacket.sizeof = AckPacket.sizeof :=
          (bytes_received_eq_iff _ _).mpr hlen
        have hl7 : (data.take 7).length = AckPacket.sizeof := by
          rw [List.length_take]; exact Nat.min_eq_left hlen
        have hrt := AckPacket.ack_bytes_ofBytes bo (data.take 7) hl7 hb
        simp only [hso, if_false, hbr, ne_eq, not_true_eq_false, hso', true_and,
          Recv.datagram.injEq, exists_eq_left', is_response, hb, hl7]
        rw [h7, hrt]
        by_cases hcrc : calculate_crc32 ((data.take 7).take (7 - crc32_sizeof)) =
            (AckPacket.ofBytes bo (data.take 7)).crc32
        · have hcrc' : (AckPacket.ofBytes bo (data.take 7)).crc32 =
              calculate_crc32 ((data.take 7).take 3) := hcrc.symm
          by_cases hid : (AckPacket.ofBytes bo (data.take 7)).ack_id = packet_id
          · by_cases hty : (AckPacket.ofBytes bo (data.take 7)).type = PacketType.ACK.toUInt8
            · simp [hcrc, hcrc', hid, hty]
            · simp [hcrc, hcrc', hid, hty]
          · simp [hcrc, hcrc', hid]
        · have hcrc' : ¬ (AckPacket.ofBytes bo (data.take 7)).crc32 =
              calculate_crc32 ((data.take 7).take 3) := fun h => hcrc h.symm
          simp [hcrc, hcrc']
      · have hbr : bytes_received data AckPacket.sizeof ≠ AckPacket.sizeof :=
          fun h => hlen ((bytes_received_eq_iff _ _).mp h)
        have hl7 : (data.take 7).length ≠ AckPacket.sizeof := by
          rw [List.length_take, h7]; omega
        simp only [hso, if_false, hbr, ne_eq, not_false_eq_true, if_true, Bool.false_eq_true,
          false_iff]
        rintro ⟨_, d, hd, hl, _⟩
        cases hd
        exact hl7 hl

theorem TelemetryServer.wait_for_ack_of_response (bo : ByteOrder) (net : Transport)
    (io : SocketLog) (kind : PacketType) (packet_id : Nat) (data : List Nat)
    (hso : 0 ≤ net.setsockopt io.sockopts)
    (hr : net.recvfrom io.recvs = Recv.datagram data)
    (hresp : is_response bo kind packet_id data) :
    wait_for_ack bo net io packet_id =
      (decide (kind = PacketType.ACK), ⟨io.sent, io.sockopts + 1, io.recvs + 1⟩) := by
  obtain ⟨hlen, hb, hcrc, hty, hid⟩ := hresp
  have hso' : ¬ net.setsockopt io.sockopts < 0 := by omega
  have hrt := AckPacket.ack_bytes_ofBytes bo data hlen hb
  have hcrc' : calculate_crc32 (data.take (AckPacket.sizeof - crc32_sizeof)) =
      (AckPacket.ofBytes bo data).crc32 := hcrc.symm
  have hbr : bytes_received data AckPacket.sizeof = AckPacket.sizeof :=
    (bytes_received_eq_iff _ _).mpr (le_of_eq hlen.symm)
  have htk : data.take AckPacket.sizeof = data := List.take_of_length_le (le_of_eq hlen)
  unfold wait_for_ack
  simp only [hso', if_false, hr, hbr, htk, ne_eq, not_true_eq_false, hrt, hcrc', hid, hty]
  cases kind <;> simp [PacketType.toUInt8]

theorem TelemetryServer.wait_for_ack_of_failed (bo : ByteOrder) (net : Transport)
    (io : SocketLog) (packet_id : Nat) (hr : net.recvfrom io.recvs = Recv.failed) :
    (wait_for_ack bo net io packet_id).1 = false := by
  unfold wait_for_ack
  by_cases hso : net.setsockopt io.sockopts < 0
  · simp [hso]
  · simp [hso, hr]

theorem TelemetryServer.retry_loop_sent (bo : ByteOrder) (net : Transport)
    (packet : TelemetryPacket) (n : Nat) (io : SocketLog) :
    ∃ k, 1 ≤ k + (if n = 0 then 1 else 0) ∧ k ≤ n ∧
      (retry_loop bo net packet n io).2.sent = io.sent ++ List.replicate k (packet.bytes bo) := by
  induction n generalizing io with
  | zero => exact ⟨0, by simp, le_refl _, by simp [retry_loop]⟩
  | succ n ih =>
    have step : ∀ io1 : SocketLog, io1.sent = io.sent ++ [packet.bytes bo] →
        ∃ k, 1 ≤ k ∧ k ≤ n + 1 ∧ (retry_loop bo net packet n io1).2.sent =
          io.sent ++ List.replicate k (packet.bytes bo) := by
      intro io1 h1
      obtain ⟨k, _, hk, hs⟩ := ih io1
      refine ⟨k + 1, by omega, by omega, ?_⟩
      rw [hs, h1, List.replicate_succ, List.append_assoc, List.singleton_append]
    have fin : ∀ k, 1 ≤ k → 1 ≤ k + (if n + 1 = 0 then 1 else 0) := by intro k hk; omega
    unfold retry_loop
    by_cases hs : net.sendto io.sent.length < 0
    · simp only [hs, if_true]
      obtain ⟨k, h1, h2, h3⟩ := step { io with sent := io.sent ++ [packet.bytes bo] } rfl
      exact ⟨k, fin k h1, h2, h3⟩
    · simp only [hs, if_false]
      have hw := wait_for_ack_sent bo net { io with sent := io.sent ++ [packet.bytes bo] }
        packet.id
      rcases hres : wait_for_ack bo net { io with sent := io.sent ++ [packet.bytes bo] }
        packet.id with ⟨b, io2⟩
      rw [hres] at hw
      cases b
      · obtain ⟨k, h1, h2, h3⟩ := step io2 hw
        exact ⟨k, fin k h1, h2, h3⟩
      · exact ⟨1, by simp, by omega, by simpa using hw⟩

theorem TelemetryServer.retry_loop_silent (bo : ByteOrder) (net : Transport)
    (packet : TelemetryPacket) (hsend : ∀ k, 0 ≤ net.sendto k)
    (hrecv : ∀ k, net.recvfrom k = Recv.failed) (n : Nat) (io : SocketLog) :
    (retry_loop bo net packet n io).1 = false ∧
      (retry_loop bo net packet n io).2.sent =
        io.sent ++ List.replicate n (packet.bytes bo) := by
  induction n generalizing io with
  | zero => simp [retry_loop]
  | succ n ih =>
    have hs : ¬ net.sendto io.sent.length < 0 := by have := hsend io.sent.length; omega
    have hw := wait_for_ack_sent bo net { io with sent := io.sent ++ [packet.bytes bo] }
      packet.id
    have hf := wait_for_ack_of_failed bo net { io with sent := io.sent ++ [packet.bytes bo] }
      packet.id (hrecv _)
    unfold retry_loop
    simp only [hs, if_false]
    rcases hres : wait_for_ack bo net { io with sent := io.sent ++ [packet.bytes bo] }
      packet.id with ⟨b, io2⟩
    rw [hres] at hw hf
    simp only at hw hf
    subst hf
    simp only
    obtain ⟨h1, h2⟩ := ih io2
    refine ⟨h1, ?_⟩
    rw [h2, hw, List.replicate_succ, List.append_assoc, List.singleton_append]

/-- C1, stop-and-wait success: when the first `sendto` succeeds and the first
receive yields a 7-byte, checksum-valid ACK echoing the packet's id, then
`send_packet_with_retry` returns `true` having made exactly one `sendto` call
(of the packet's bytes) and exactly one receive. -/
theorem C1_stop_and_wait_success (bo : ByteOrder) (net : Transport)
    (packet : TelemetryPacket) (data : List Nat)
    (hsend : 0 ≤ net.sendto 0) (hopt : 0 ≤ net.setsockopt 0)
    (hrecv : net.recvfrom 0 = Recv.datagram data)
    (hack : is_response bo PacketType.ACK packet.id data) :
    TelemetryServer.send_packet_with_retry bo net packet =
      (true, ⟨[packet.bytes bo], 1, 1⟩) := by
  have hs : ¬ net.sendto 0 < 0 := by omega
  have hw := TelemetryServer.wait_for_ack_of_response bo net ⟨[packet.bytes bo], 0, 0⟩
    PacketType.ACK packet.id data hopt hrecv hack
  simp only [TelemetryServer.send_packet_with_retry, MAX_RETRIES, SocketLog.empty,
    TelemetryServer.retry_loop, List.length_nil, hs, if_false, List.nil_append, hw]
  rfl

theorem C1_stop_and_wait_success_witness :
    TelemetryServer.send_packet_with_retry ByteOrder.little (scripted [sample_ack])
        sample_packet =
      (true, ⟨[sample_packet.bytes ByteOrder.little], 1, 1⟩) :=
  C1_stop_and_wait_success ByteOrder.little (scripted [sample_ack]) sample_packet sample_ack
    (by decide) (by decide) rfl (by decide)

/-- C2, retry exhaustion: when every `sendto` succeeds and every receive times
out, `send_packet_with_retry` returns `false` having transmitted the packet
exactly 3 times. -/
theorem C2_retry_exhaustion (bo : ByteOrder) (net : Transport) (packet : TelemetryPacket)
    (hsend : ∀ k, 0 ≤ net.sendto k) (hrecv : ∀ k, net.recvfrom k = Recv.failed) :
    (TelemetryServer.send_packet_with_retry bo net packet).1 = false ∧
      (TelemetryServer.send_packet_with_retry bo net packet).2.sent =
        [packet.bytes bo, packet.bytes bo, packet.bytes bo] := by
  have h := TelemetryServer.retry_loop_silent bo net packet hsend hrecv MAX_RETRIES
    SocketLog.empty
  exact ⟨h.1, by rw [TelemetryServer.send_packet_with_retry, h.2]; rfl⟩

theorem C2_retry_exhaustion_witness :
    (TelemetryServer.send_packet_with_retry ByteOrder.little (scripted []) sample_packet).1 =
        false ∧
      (TelemetryServer.send_packet_with_retry ByteOrder.little (scripted [])
          sample_packet).2.sent =
        [sample_packet.bytes ByteOrder.little, sample_packet.bytes ByteOrder.little,
          sample_packet.bytes ByteOrder.little] :=
  C2_retry_exhaustion ByteOrder.little (scripted []) sample_packet
    (fun _ => (by decide : (0 : Int) ≤ 23)) (fun _ => rfl)

/-- C3, NAK triggers resend: when the first transmission is answered by a valid
NAK echoing the packet's id and the second by a valid ACK echoing it, then
`send_packet_with_retry` returns `true` after exactly 2 transmissions. -/
theorem C3_nak_triggers_resend (bo : ByteOrder) (net : Transport)
    (packet : TelemetryPacket) (nak ack : List Nat)
    (hsend0 : 0 ≤ net.sendto 0) (hopt0 : 0 ≤ net.setsockopt 0)
    (hrecv0 : net.recvfrom 0 = Recv.datagram nak)
    (hnak : is_response bo PacketType.NAK packet.id nak)
    (hsend1 : 0 ≤ net.sendto 1) (hopt1 : 0 ≤ net.setsockopt 1)
    (hrecv1 : net.recvfrom 1 = Recv.datagram ack)
    (hack : is_response bo PacketType.ACK packet.id ack) :
    TelemetryServer.send_packet_with_retry bo net packet =
      (true, ⟨[packet.bytes bo, packet.bytes bo], 2, 2⟩) := by
  have hs0 : ¬ net.sendto 0 < 0 := by omega
  have hs1 : ¬ net.sendto 1 < 0 := by omega
  have hw0 := TelemetryServer.wait_for_ack_of_response bo net ⟨[packet.bytes bo], 0, 0⟩
    PacketType.NAK packet.id nak hopt0 hrecv0 hnak
  have hw1 := TelemetryServer.wait_for_ack_of_response bo net
    ⟨[packet.bytes bo, packet.bytes bo], 1, 1⟩ PacketType.ACK packet.id ack hopt1 hrecv1 hack
  have d0 : decide (PacketType.NAK = PacketType.ACK) = false := rfl
  have d1 : decide (PacketType.ACK = PacketType.ACK) = true := rfl
  rw [d0] at hw0
  rw [d1] at hw1
  simp only [TelemetryServer.send_packet_with_retry, MAX_RETRIES, SocketLog.empty,
    TelemetryServer.retry_loop, List.length_nil, hs0, if_false, List.nil_append, hw0,
    List.length_singleton, hs1, List.singleton_append, zero_add, hw1]

theorem C3_nak_triggers_resend_witness :
    TelemetryServer.send_packet_with_retry ByteOrder.little (scripted [sample_nak, sample_ack])
        sample_packet =
      (true, ⟨[sample_packet.bytes ByteOrder.little, sample_packet.bytes ByteOrder.little],
        2, 2⟩) :=
  C3_nak_triggers_resend ByteOrder.little (scripted [sample_nak, sample_ack]) sample_packet
    sample_nak sample_ack (by decide) (by decide) rfl (by decide) (by decide) (by decide) rfl
    (by decide)

/-- C4, hard attempt ceiling: whatever the socket calls return, the call
`send_packet_with_retry` ends with `true` (Delivered) or `false` (Failed), makes
at least one and at most 3 `sendto` calls, and every buffer it hands to `sendto`
is the byte image of the one packet. -/
theorem C4_hard_attempt_ceiling (bo : ByteOrder) (net : Transport)
    (packet : TelemetryPacket) :
    ((TelemetryServer.send_packet_with_retry bo net packet).1 = true ∨
        (TelemetryServer.send_packet_with_retry bo net packet).1 = false) ∧
      1 ≤ (TelemetryServer.send_packet_with_retry bo net packet).2.sent.length ∧
      (TelemetryServer.send_packet_with_retry bo net packet).2.sent.length ≤ 3 ∧
      ∀ d ∈ (TelemetryServer.send_packet_with_retry bo net packet).2.sent,
        d = packet.bytes bo := by
  obtain ⟨k, h1, h3, hs⟩ :=
    TelemetryServer.retry_loop_sent bo net packet MAX_RETRIES SocketLog.empty
  have hk : 1 ≤ k := by simpa [MAX_RETRIES] using h1
  have hk3 : k ≤ 3 := h3
  have hs' : (TelemetryServer.send_packet_with_retry bo net packet).2.sent =
      List.replicate k (packet.bytes bo) := by
    rw [TelemetryServer.send_packet_with_retry, hs]; rfl
  refine ⟨?_, ?_, ?_, ?_⟩
  · cases (TelemetryServer.send_packet_with_retry bo net packet).1 <;> simp
  · rw [hs', List.length_replicate]; exact hk
  · rw [hs', List.length_replicate]; exact hk3
  · intro d hd
    rw [hs'] at hd
    exact List.eq_of_mem_replicate hd

/-- C5, consumer response rule: for every 23-byte datagram and every cursor the
consumer makes exactly one `sendto` call, with a 7-byte response; the response
is an ACK exactly when the packet's kind is DATA and its stored checksum is the
checksum of the 19 bytes before it, and a NAK exactly when not; its `ack_id` is
the inbound packet's `id`, and its stored checksum is the checksum of its own
first 3 bytes. -/
theorem C5_consumer_response_rule (bo : ByteOrder) (c : TelemetryClient)
    (data stale : List Nat) (bytes_sent : Int) (hsized : is_sized data) :
    ∃ resp,
      Output.datagrams
          (TelemetryClient.run_iteration bo c ⟨Recv.datagram data, stale, bytes_sent⟩).2 =
        [resp] ∧
      resp.length = 7 ∧
      ((AckPacket.ofBytes bo resp).type = 0x02 ↔
        ((TelemetryPacket.ofBytes bo data).type = 0x01 ∧
          (TelemetryPacket.ofBytes bo data).crc32 = calculate_crc32 (data.take 19))) ∧
      ((AckPacket.ofBytes bo resp).type = 0x03 ↔
        ¬ ((TelemetryPacket.ofBytes bo data).type = 0x01 ∧
          (TelemetryPacket.ofBytes bo data).crc32 = calculate_crc32 (data.take 19))) ∧
      (AckPacket.ofBytes bo resp).ack_id = (TelemetryPacket.ofBytes bo data).id ∧
      (AckPacket.ofBytes bo resp).crc32 = calculate_crc32 (resp.take 3) := by
  obtain ⟨resp, h1, hl, _, hc, ht, hi⟩ :=
    TelemetryClient.run_iteration_response bo c data stale bytes_sent hsized
  refine ⟨resp, h1, hl, ?_, ?_, hi, hc⟩
  · by_cases hv : is_valid bo data
    · rw [if_pos hv] at ht
      exact ⟨fun _ => hv, fun _ => ht⟩
    · rw [if_neg hv] at ht
      exact ⟨fun h2 => by rw [ht] at h2; exact absurd h2 (by decide), fun h => absurd h hv⟩
  · by_cases hv : is_valid bo data
    · rw [if_pos hv] at ht
      exact ⟨fun h3 => by rw [ht] at h3; exact absurd h3 (by decide), fun h => absurd hv h⟩
    · rw [if_neg hv] at ht
      exact ⟨fun _ => hv, fun _ => ht⟩

theorem C5_consumer_response_rule_witness :
    ∃ resp,
      Output.datagrams
          (TelemetryClient.run_iteration ByteOrder.little ⟨0⟩
            ⟨Recv.datagram (sample_packet.bytes ByteOrder.little), [], 7⟩).2 =
        [resp] ∧
      resp.length = 7 ∧
      ((AckPacket.ofBytes ByteOrder.little resp).type = 0x02 ↔
        ((TelemetryPacket.ofBytes ByteOrder.little
            (sample_packet.bytes ByteOrder.little)).type = 0x01 ∧
          (TelemetryPacket.ofBytes ByteOrder.little
            (sample_packet.bytes ByteOrder.little)).crc32 =
              calculate_crc32 ((sample_packet.bytes ByteOrder.little).take 19))) ∧
      ((AckPacket.ofBytes ByteOrder.little resp).type = 0x03 ↔
        ¬ ((TelemetryPacket.ofBytes ByteOrder.little
            (sample_packet.bytes ByteOrder.little)).type = 0x01 ∧
          (TelemetryPacket.ofBytes ByteOrder.little
            (sample_packet.bytes ByteOrder.little)).crc32 =
              calculate_crc32 ((sample_packet.bytes ByteOrder.little).take 19))) ∧
      (AckPacket.ofBytes ByteOrder.little resp).ack_id =
        (TelemetryPacket.ofBytes ByteOrder.little (sample_packet.bytes ByteOrder.little)).id ∧
      (AckPacket.ofBytes ByteOrder.little resp).crc32 = calculate_crc32 (resp.take 3) :=
  C5_consumer_response_rule ByteOrder.little ⟨0⟩ (sample_packet.bytes ByteOrder.little) [] 7
    (by decide)

/-- C7 as stated fails: flipping bit 0 of the kind byte of a valid data packet
turns the kind into 0, and the consumer rejects the packet at the kind check
(line "Invalid packet type"), before any checksum is computed; no checksum
mismatch is reported. -/
theorem C7_checksum_tamper_counterexample :
    is_sized (sample_datagram 5) ∧ is_valid ByteOrder.little (sample_datagram 5) ∧
      (TelemetryClient.run_iteration ByteOrder.little ⟨0⟩
          ⟨Recv.datagram (flip_bit (sample_datagram 5) 0), [], 7⟩).2 =
        [Output.invalid_type 0, Output.sendto sample_nak, Output.nak_sent 5] := by
  decide

/-- C7 amended, checksum tamper: for every valid 23-byte data packet and every
one of its 184 bit positions, the packet with that bit flipped is answered by
exactly one NAK (no ACK), is not handed to the sink and leaves the cursor alone;
the consumer reports a checksum mismatch when the bit lies outside the kind byte
and an invalid packet type when it lies in the kind byte. -/
theorem C7_checksum_tamper (bo : ByteOrder) (c : TelemetryClient) (data stale : List Nat)
    (bytes_sent : Int) (k : Nat) (hsized : is_sized data) (hvalid : is_valid bo data)
    (hk : k < 184) :
    (∃ resp,
        Output.datagrams
            (TelemetryClient.run_iteration bo c
              ⟨Recv.datagram (flip_bit data k), stale, bytes_sent⟩).2 = [resp] ∧
          is_response bo PacketType.NAK (TelemetryPacket.ofBytes bo (flip_bit data k)).id resp) ∧
      Output.samples
          (TelemetryClient.run_iteration bo c
            ⟨Recv.datagram (flip_bit data k), stale, bytes_sent⟩).2 = [] ∧
      (TelemetryClient.run_iteration bo c
          ⟨Recv.datagram (flip_bit data k), stale, bytes_sent⟩).1 = c ∧
      (8 ≤ k →
        (TelemetryClient.run_iteration bo c
            ⟨Recv.datagram (flip_bit data k), stale, bytes_sent⟩).2.head? =
          some (Output.crc_mismatch (calculate_crc32 ((flip_bit data k).take 19))
            (TelemetryPacket.ofBytes bo (flip_bit data k)).crc32)) ∧
      (k < 8 →
        (TelemetryClient.run_iteration bo c
            ⟨Recv.datagram (flip_bit data k), stale, bytes_sent⟩).2.head? =
          some (Output.invalid_type (TelemetryPacket.ofBytes bo (flip_bit data k)).type)) := by
  have hs := flip_bit_sized data k hsized
  have hid := TelemetryPacket.ofBytes_id_lt bo _ hs
  obtain ⟨resp, h1, h2⟩ := TelemetryClient.send_nak_datagrams bo bytes_sent _ hid
  by_cases hk8 : k < 8
  · have hty := flip_bit_kind bo data k hsized hvalid hk8
    rw [TelemetryClient.run_iteration_wrong_type bo c _ stale bytes_sent hs hty]
    refine ⟨⟨resp, by simpa [Output.datagrams] using h1, h2⟩, ?_, rfl, fun h => by omega,
      fun _ => rfl⟩
    simpa [Output.samples] using TelemetryClient.send_nak_samples bo bytes_sent _
  · obtain ⟨hty, hcrc⟩ := flip_bit_checksum bo data k hsized hvalid (by omega) hk
    rw [TelemetryClient.run_iteration_bad_crc bo c _ stale bytes_sent hs hty hcrc]
    refine ⟨⟨resp, by simpa [Output.datagrams] using h1, h2⟩, ?_, rfl, fun _ => rfl,
      fun h => absurd h hk8⟩
    simpa [Output.samples] using TelemetryClient.send_nak_samples bo bytes_sent _

theorem C7_checksum_tamper_witness :
    (TelemetryClient.run_iteration ByteOrder.little ⟨0⟩
        ⟨Recv.datagram (flip_bit (sample_datagram 5) 100), [], 7⟩).2.head? =
      some (Output.crc_mismatch (calculate_crc32 ((flip_bit (sample_datagram 5) 100).take 19))
        (TelemetryPacket.ofBytes ByteOrder.little (flip_bit (sample_datagram 5) 100)).crc32) :=
  (C7_checksum_tamper ByteOrder.little ⟨0⟩ (sample_datagram 5) [] 7 100 (by decide) (by decide)
    (by decide)).2.2.2.1 (by decide)

/-- C8 as stated fails at sequence number 65535: after the first packet the
cursor wraps to 0, the plain comparison `65535 < 0` is false, and the repeated
packet is handled without the line "Duplicate packet ID": the two iterations
print the sample and send the ACK, and nothing else. -/
theorem C8_duplicate_handling_counterexample :
    is_sized (sample_datagram 65535) ∧ is_valid ByteOrder.little (sample_datagram 65535) ∧
      (TelemetryPacket.ofBytes ByteOrder.little (sample_datagram 65535)).id = 65535 ∧
      TelemetryClient.run ByteOrder.little ⟨65535⟩
          [⟨Recv.datagram (sample_datagram 65535), [], 7⟩,
            ⟨Recv.datagram (sample_datagram 65535), [], 7⟩] =
        (⟨0⟩,
          (Output.telemetry (TelemetryPacket.ofBytes ByteOrder.little (sample_datagram 65535)) ::
              TelemetryClient.send_ack ByteOrder.little 7 65535) ++
            (Output.telemetry (TelemetryPacket.ofBytes ByteOrder.little (sample_datagram 65535)) ::
              TelemetryClient.send_ack ByteOrder.little 7 65535)) := by
  decide

/-- C8 amended, duplicate handling: when the consumer receives a valid data
packet with sequence number `s` and then at once another valid data packet with
the same `s`, it answers both with one ACK echoing `s`; for `s < 65535` the
second is reported as a duplicate (`s < s + 1`), while for `s = 65535` the cursor
has wrapped to 0 and the second is handled as new. -/
theorem C8_duplicate_handling (bo : ByteOrder) (c : TelemetryClient)
    (d1 d2 stale1 stale2 : List Nat) (sent1 sent2 : Int) (s : Nat)
    (h1 : is_sized d1) (v1 : is_valid bo d1) (i1 : (TelemetryPacket.ofBytes bo d1).id = s)
    (h2 : is_sized d2) (v2 : is_valid bo d2) (i2 : (TelemetryPacket.ofBytes bo d2).id = s) :
    (∃ resp,
        Output.datagrams
            (TelemetryClient.run_iteration bo c ⟨Recv.datagram d1, stale1, sent1⟩).2 = [resp] ∧
          is_response bo PacketType.ACK s resp) ∧
      (∃ resp,
        Output.datagrams
            (TelemetryClient.run_iteration bo
              (TelemetryClient.run_iteration bo c ⟨Recv.datagram d1, stale1, sent1⟩).1
              ⟨Recv.datagram d2, stale2, sent2⟩).2 = [resp] ∧
          is_response bo PacketType.ACK s resp) ∧
      (s < 65535 →
        (TelemetryClient.run_iteration bo
            (TelemetryClient.run_iteration bo c ⟨Recv.datagram d1, stale1, sent1⟩).1
            ⟨Recv.datagram d2, stale2, sent2⟩).2 =
          Output.duplicate s (s + 1) :: Output.telemetry (TelemetryPacket.ofBytes bo d2) ::
            TelemetryClient.send_ack bo sent2 s) ∧
      (s = 65535 →
        (TelemetryClient.run_iteration bo
            (TelemetryClient.run_iteration bo c ⟨Recv.datagram d1, stale1, sent1⟩).1
            ⟨Recv.datagram d2, stale2, sent2⟩).2 =
          Output.telemetry (TelemetryPacket.ofBytes bo d2) ::
            TelemetryClient.send_ack bo sent2 s) := by
  have hs : s < 2 ^ 16 := i1 ▸ TelemetryPacket.ofBytes_id_lt bo d1 h1
  obtain ⟨r1, a1, b1⟩ := TelemetryClient.run_iteration_response bo c d1 stale1 sent1 h1
  obtain ⟨r2, a2, b2⟩ := TelemetryClient.run_iteration_response bo
    (TelemetryClient.run_iteration bo c ⟨Recv.datagram d1, stale1, sent1⟩).1 d2 stale2 sent2 h2
  rw [if_pos v1, i1] at b1
  rw [if_pos v2, i2] at b2
  refine ⟨⟨r1, a1, b1⟩, ⟨r2, a2, b2⟩, ?_, ?_⟩
  · intro hlt
    rw [TelemetryClient.run_iteration_valid bo c d1 stale1 sent1 h1 v1,
      TelemetryClient.run_iteration_valid bo _ d2 stale2 sent2 h2 v2, i1, i2]
    have e : (s + 1) % 65536 = s + 1 := Nat.mod_eq_of_lt (by omega)
    simp [e]
  · intro heq
    rw [TelemetryClient.run_iteration_valid bo c d1 stale1 sent1 h1 v1,
      TelemetryClient.run_iteration_valid bo _ d2 stale2 sent2 h2 v2, i1, i2]
    subst heq
    simp

theorem C8_duplicate_handling_witness :
    (TelemetryClient.run_iteration ByteOrder.little
        (TelemetryClient.run_iteration ByteOrder.little ⟨0⟩
          ⟨Recv.datagram (sample_datagram 5), [], 7⟩).1
        ⟨Recv.datagram (sample_datagram 5), [], 7⟩).2 =
      Output.duplicate 5 (5 + 1) ::
        Output.telemetry (TelemetryPacket.ofBytes ByteOrder.little (sample_datagram 5)) ::
          TelemetryClient.send_ack ByteOrder.little 7 5 :=
  (C8_duplicate_handling ByteOrder.little ⟨0⟩ (sample_datagram 5) (sample_datagram 5) [] [] 7 7
    5 (by decide) (by decide) (by decide) (by decide) (by decide) (by decide)).2.2.1 (by decide)

/-- C9, wraparound: with the cursor at 65535, accepting a valid data packet with
sequence number 65535 handles it as new and sets the cursor to 0; a following
valid data packet with
sequence number 0 is handled as new (no duplicate line: its sample is printed
and nothing else precedes the ACK), is answered by one ACK echoing 0, and sets
the cursor to 1. -/
theorem C9_wraparound (bo : ByteOrder) (c : TelemetryClient)
    (d1 d2 stale1 stale2 : List Nat) (sent1 sent2 : Int)
    (hc : c.expected_packet_id_ = 65535)
    (h1 : is_sized d1) (v1 : is_valid bo d1)
    (i1 : (TelemetryPacket.ofBytes bo d1).id = 65535)
    (h2 : is_sized d2) (v2 : is_valid bo d2) (i2 : (TelemetryPacket.ofBytes bo d2).id = 0) :
    TelemetryClient.run_iteration bo c ⟨Recv.datagram d1, stale1, sent1⟩ =
        (⟨0⟩, Output.telemetry (TelemetryPacket.ofBytes bo d1) ::
          TelemetryClient.send_ack bo sent1 65535) ∧
      (TelemetryClient.run_iteration bo
          (TelemetryClient.run_iteration bo c ⟨Recv.datagram d1, stale1, sent1⟩).1
          ⟨Recv.datagram d2, stale2, sent2⟩).2 =
        Output.telemetry (TelemetryPacket.ofBytes bo d2) ::
          TelemetryClient.send_ack bo sent2 0 ∧
      (∃ resp,
        Output.datagrams
            (TelemetryClient.run_iteration bo
              (TelemetryClient.run_iteration bo c ⟨Recv.datagram d1, stale1, sent1⟩).1
              ⟨Recv.datagram d2, stale2, sent2⟩).2 = [resp] ∧
          is_response bo PacketType.ACK 0 resp) ∧
      (TelemetryClient.run_iteration bo
          (TelemetryClient.run_iteration bo c ⟨Recv.datagram d1, stale1, sent1⟩).1
          ⟨Recv.datagram d2, stale2, sent2⟩).1.expected_packet_id_ = 1 := by
  obtain ⟨r2, a2, b2⟩ := TelemetryClient.run_iteration_response bo
    (TelemetryClient.run_iteration bo c ⟨Recv.datagram d1, stale1, sent1⟩).1 d2 stale2 sent2 h2
  rw [if_pos v2, i2] at b2
  refine ⟨?_, ?_, ⟨r2, a2, b2⟩, ?_⟩
  · rw [TelemetryClient.run_iteration_valid bo c d1 stale1 sent1 h1 v1, i1, hc]
    simp
  · rw [TelemetryClient.run_iteration_valid bo c d1 stale1 sent1 h1 v1,
      TelemetryClient.run_iteration_valid bo _ d2 stale2 sent2 h2 v2, i1, i2]
    simp
  · rw [TelemetryClient.run_iteration_valid bo _ d2 stale2 sent2 h2 v2, i2]
    simp

theorem C9_wraparound_witness :
    TelemetryClient.run_iteration ByteOrder.little ⟨65535⟩
        ⟨Recv.datagram (sample_datagram 65535), [], 7⟩ =
      (⟨0⟩, Output.telemetry (TelemetryPacket.ofBytes ByteOrder.little (sample_datagram 65535)) ::
        TelemetryClient.send_ack ByteOrder.little 7 65535) :=
  (C9_wraparound ByteOrder.little ⟨65535⟩ (sample_datagram 65535) (sample_datagram 0) [] [] 7 7
    rfl (by decide) (by decide) (by decide) (by decide) (by decide) (by decide)).1

theorem TelemetryClient.send_nak_shape (bo : ByteOrder) (bytes_sent : Int) (packet_id : Nat) :
    ∃ resp tail, send_nak bo bytes_sent packet_id = Output.sendto resp :: tail ∧
      (tail = [Output.nak_failed packet_id] ∨ tail = [Output.nak_sent packet_id]) ∧
      resp.length = 7 ∧ (AckPacket.ofBytes bo resp).type = 0x03 ∧
      (AckPacket.ofBytes bo resp).crc32 = calculate_crc32 (resp.take 3) := by
  have lay : ∀ crc : Nat, _ := fun crc =>
    field_layout3 (store bo 1 PacketType.NAK.toUInt8) (store bo 2 packet_id) (store bo 4 crc)
      (store_length _ _ _) (store_length _ _ _) (store_length _ _ _)
  have hlt : calculate_crc32 (store bo 1 PacketType.NAK.toUInt8 ++ store bo 2 packet_id) <
      2 ^ 32 :=
    calculate_crc32_lt _ (is_bytes_append _ _ (store_is_bytes _ _ _) (store_is_bytes _ _ _))
  have h3 : AckPacket.sizeof - crc32_sizeof = 3 := rfl
  have hpre : (AckPacket.bytes bo
      { type := PacketType.NAK.toUInt8, ack_id := packet_id, crc32 := 0 }).take 3 =
      store bo 1 PacketType.NAK.toUInt8 ++ store bo 2 packet_id := (lay 0).2.2.2
  obtain ⟨l1, _, l3, l4⟩ :=
    lay (calculate_crc32 (store bo 1 PacketType.NAK.toUInt8 ++ store bo 2 packet_id))
  refine ⟨_, _, rfl, ?_, ?_, ?_, ?_⟩
  · by_cases h : bytes_sent < 0
    · left; simp [h]
    · right; simp [h]
  · simp [AckPacket.bytes, store_length]
  · rw [h3, hpre]
    simp only [AckPacket.ofBytes, AckPacket.bytes, l1, load_store]
    rfl
  · rw [h3, hpre]
    simp only [AckPacket.ofBytes, AckPacket.bytes, l3, l4, load_store]
    exact Nat.mod_eq_of_lt (by simpa using hlt)

/-- C11 as stated fails, in two ways.  A 24-byte datagram whose first 23 bytes
are a valid data packet is cut to 23 bytes by `recvfrom`, passes the size check,
is validated, handed to the sink and ACKed, and moves the cursor.  And the
contents of a wrong-size datagram are inspected: two 3-byte datagrams that
differ in their bytes at offsets 1..2 are answered by different NAKs. -/
theorem C11_size_gate_counterexample :
    (sample_datagram 5 ++ [0]).length = 24 ∧
      TelemetryClient.run_iteration ByteOrder.little ⟨0⟩
          ⟨Recv.datagram (sample_datagram 5 ++ [0]), List.replicate 23 0, 7⟩ =
        (⟨6⟩, Output.telemetry (TelemetryPacket.ofBytes ByteOrder.little (sample_datagram 5)) ::
          TelemetryClient.send_ack ByteOrder.little 7 5) ∧
      Output.datagrams
          (TelemetryClient.run_iteration ByteOrder.little ⟨0⟩
            ⟨Recv.datagram [1, 2, 3], List.replicate 23 0, 7⟩).2 ≠
        Output.datagrams
          (TelemetryClient.run_iteration ByteOrder.little ⟨0⟩
            ⟨Recv.datagram [1, 9, 9], List.replicate 23 0, 7⟩).2 := by
  decide

/-- C11 amended, size gate: a datagram shorter than 23 bytes, whatever bytes it
holds, is reported as having the wrong size; it is not validated (none of the
lines of `validate_packet` is written), nothing is handed to the sink, no
datagram sent in answer is an ACK, and the cursor is unchanged. -/
theorem C11_size_gate (bo : ByteOrder) (c : TelemetryClient) (data stale : List Nat)
    (bytes_sent : Int) (hlen : data.length < 23) :
    (TelemetryClient.run_iteration bo c ⟨Recv.datagram data, stale, bytes_sent⟩).1 = c ∧
      (TelemetryClient.run_iteration bo c ⟨Recv.datagram data, stale, bytes_sent⟩).2.head? =
        some (Output.wrong_size data.length) ∧
      (∀ t, Output.invalid_type t ∉
        (TelemetryClient.run_iteration bo c ⟨Recv.datagram data, stale, bytes_sent⟩).2) ∧
      (∀ x y, Output.crc_mismatch x y ∉
        (TelemetryClient.run_iteration bo c ⟨Recv.datagram data, stale, bytes_sent⟩).2) ∧
      (∀ i e, Output.duplicate i e ∉
        (TelemetryClient.run_iteration bo c ⟨Recv.datagram data, stale, bytes_sent⟩).2) ∧
      Output.samples
          (TelemetryClient.run_iteration bo c ⟨Recv.datagram data, stale, bytes_sent⟩).2 = [] ∧
      (∀ resp ∈ Output.datagrams
          (TelemetryClient.run_iteration bo c ⟨Recv.datagram data, stale, bytes_sent⟩).2,
        (AckPacket.ofBytes bo resp).type ≠ 0x02) := by
  rw [TelemetryClient.run_iteration_wrong_size bo c data stale bytes_sent hlen]
  obtain ⟨resp, tail, hq, htail, _, hty, _⟩ := TelemetryClient.send_nak_shape bo bytes_sent
    (TelemetryPacket.ofBytes bo (recv_buffer data stale)).id
  rw [hq]
  refine ⟨rfl, rfl, ?_, ?_, ?_, ?_, ?_⟩
  · intro t
    rcases htail with h | h <;> simp [h]
  · intro x y
    rcases htail with h | h <;> simp [h]
  · intro i e
    rcases htail with h | h <;> simp [h]
  · rcases htail with h | h <;> simp [h, Output.samples]
  · intro r hr
    have : r = resp := by
      rcases htail with h | h <;> simpa [h, Output.datagrams] using hr
    rw [this, hty]
    decide

theorem C11_size_gate_witness :
    Output.samples
        (TelemetryClient.run_iteration ByteOrder.little ⟨0⟩
          ⟨Recv.datagram ((sample_datagram 5).take 22), List.replicate 23 0, 7⟩).2 = [] :=
  (C11_size_gate ByteOrder.little ⟨0⟩ ((sample_datagram 5).take 22) (List.replicate 23 0) 7
    (by decide)).2.2.2.2.2.1

/-- C12 as stated fails: a 3-byte datagram is answered by one outbound datagram,
a NAK built by `send_nak` from the `id` bytes lying in the receive buffer; and a
24-byte datagram whose first 23 bytes are a valid data packet is answered by one
outbound datagram as well, the ACK for that packet. -/
theorem C12_silent_drop_counterexample :
    TelemetryClient.run_iteration ByteOrder.little ⟨0⟩
        ⟨Recv.datagram [1, 2, 3], List.replicate 23 0, 7⟩ =
      (⟨0⟩, [Output.wrong_size 3, Output.sendto [3, 2, 3, 115, 84, 56, 86],
        Output.nak_sent 770]) ∧
      (sample_datagram 5 ++ [0]).length = 24 ∧
      Output.datagrams
          (TelemetryClient.run_iteration ByteOrder.little ⟨0⟩
            ⟨Recv.datagram (sample_datagram 5 ++ [0]), List.replicate 23 0, 7⟩).2 =
        [sample_ack] := by
  decide

/-- C12 amended: a datagram shorter than 23 bytes is answered by exactly one
outbound datagram, a 7-byte NAK carrying the checksum of its first 3 bytes
(never an ACK), and the consumer goes on with the next datagram from the same
state. -/
theorem C12_nak_on_size_mismatch (bo : ByteOrder) (c : TelemetryClient)
    (data stale : List Nat) (bytes_sent : Int) (hlen : data.length < 23) :
    (∃ resp,
        Output.datagrams
            (TelemetryClient.run_iteration bo c ⟨Recv.datagram data, stale, bytes_sent⟩).2 =
          [resp] ∧
        resp.length = 7 ∧ (AckPacket.ofBytes bo resp).type = 0x03 ∧
        (AckPacket.ofBytes bo resp).crc32 = calculate_crc32 (resp.take 3)) ∧
      ∀ rest : List Arrival,
        TelemetryClient.run bo c (⟨Recv.datagram data, stale, bytes_sent⟩ :: rest) =
          ((TelemetryClient.run bo c rest).1,
            (TelemetryClient.run_iteration bo c ⟨Recv.datagram data, stale, bytes_sent⟩).2 ++
              (TelemetryClient.run bo c rest).2) := by
  have hrun := TelemetryClient.run_iteration_wrong_size bo c data stale bytes_sent hlen
  obtain ⟨resp, tail, hq, htail, hl, hty, hcrc⟩ := TelemetryClient.send_nak_shape bo bytes_sent
    (TelemetryPacket.ofBytes bo (recv_buffer data stale)).id
  constructor
  · refine ⟨resp, ?_, hl, hty, hcrc⟩
    rw [hrun, hq]
    rcases htail with h | h <;> simp [h, Output.datagrams]
  · intro rest
    simp only [TelemetryClient.run]
    rw [hrun]

theorem C12_nak_on_size_mismatch_witness :
    ∃ resp,
      Output.datagrams
          (TelemetryClient.run_iteration ByteOrder.little ⟨0⟩
            ⟨Recv.datagram [1, 2, 3], List.replicate 23 0, 7⟩).2 = [resp] ∧
        resp.length = 7 ∧ (AckPacket.ofBytes ByteOrder.little resp).type = 0x03 ∧
        (AckPacket.ofBytes ByteOrder.little resp).crc32 = calculate_crc32 (resp.take 3) :=
  (C12_nak_on_size_mismatch ByteOrder.little ⟨0⟩ [1, 2, 3] (List.replicate 23 0) 7
    (by decide)).1

/-! ## Layout of the two packets -/

theorem field_layout7 (s1 s2 s3 s4 s5 s6 s7 : List Nat) (h1 : s1.length = 1)
    (h2 : s2.length = 2) (h3 : s3.length = 4) (h4 : s4.length = 4) (h5 : s5.length = 4)
    (h6 : s6.length = 4) (h7 : s7.length = 4) :
    field (s1 ++ s2 ++ s3 ++ s4 ++ s5 ++ s6 ++ s7) 0 1 = s1 ∧
      field (s1 ++ s2 ++ s3 ++ s4 ++ s5 ++ s6 ++ s7) 1 2 = s2 ∧
      field (s1 ++ s2 ++ s3 ++ s4 ++ s5 ++ s6 ++ s7) 3 4 = s3 ∧
      field (s1 ++ s2 ++ s3 ++ s4 ++ s5 ++ s6 ++ s7) 7 4 = s4 ∧
      field (s1 ++ s2 ++ s3 ++ s4 ++ s5 ++ s6 ++ s7) 11 4 = s5 ∧
      field (s1 ++ s2 ++ s3 ++ s4 ++ s5 ++ s6 ++ s7) 15 4 = s6 ∧
      field (s1 ++ s2 ++ s3 ++ s4 ++ s5 ++ s6 ++ s7) 19 4 = s7 ∧
      (s1 ++ s2 ++ s3 ++ s4 ++ s5 ++ s6 ++ s7).take 19 = s1 ++ s2 ++ s3 ++ s4 ++ s5 ++ s6 ∧
      (s1 ++ s2 ++ s3 ++ s4 ++ s5 ++ s6 ++ s7).length = 23 := by
  have d1 : ∀ n, 1 ≤ n → s1.drop n = [] := fun n hn => List.drop_eq_nil_of_le (by omega)
  have d2 : ∀ n, 2 ≤ n → s2.drop n = [] := fun n hn => List.drop_eq_nil_of_le (by omega)
  have d3 : ∀ n, 4 ≤ n → s3.drop n = [] := fun n hn => List.drop_eq_nil_of_le (by omega)
  have d4 : ∀ n, 4 ≤ n → s4.drop n = [] := fun n hn => List.drop_eq_nil_of_le (by omega)
  have d5 : ∀ n, 4 ≤ n → s5.drop n = [] := fun n hn => List.drop_eq_nil_of_le (by omega)
  have d6 : ∀ n, 4 ≤ n → s6.drop n = [] := fun n hn => List.drop_eq_nil_of_le (by omega)
  have t1 : ∀ n, 1 ≤ n → s1.take n = s1 := fun n hn => List.take_of_length_le (by omega)
  have t2 : ∀ n, 2 ≤ n → s2.take n = s2 := fun n hn => List.take_of_length_le (by omega)
  have t3 : ∀ n, 4 ≤ n → s3.take n = s3 := fun n hn => List.take_of_length_le (by omega)
  have t4 : ∀ n, 4 ≤ n → s4.take n = s4 := fun n hn => List.take_of_length_le (by omega)
  have t5 : ∀ n, 4 ≤ n → s5.take n = s5 := fun n hn => List.take_of_length_le (by omega)
  have t6 : ∀ n, 4 ≤ n → s6.take n = s6 := fun n hn => List.take_of_length_le (by omega)
  have t7 : ∀ n, 4 ≤ n → s7.take n = s7 := fun n hn => List.take_of_length_le (by omega)
  refine ⟨?_, ?_, ?_, ?_, ?_, ?_, ?_, ?_, ?_⟩ <;>
    simp [field, List.drop_append_eq_append_drop, List.take_append_eq_append_take, h1, h2, h3,
      h4, h5, h6, h7, d1, d2, d3, d4, d5, d6, t1, t2, t3, t4, t5, t6, t7]

theorem TelemetryPacket.bytes_layout (bo : ByteOrder) (p : TelemetryPacket) :
    field (p.bytes bo) 0 1 = store bo 1 p.type ∧
      field (p.bytes bo) 1 2 = store bo 2 p.id ∧
      field (p.bytes bo) 3 4 = store bo 4 p.timestamp ∧
      field (p.bytes bo) 7 4 = store bo 4 p.sensor1 ∧
      field (p.bytes bo) 11 4 = store bo 4 p.sensor2 ∧
      field (p.bytes bo) 15 4 = store bo 4 p.sensor3 ∧
      field (p.bytes bo) 19 4 = store bo 4 p.crc32 ∧
      (p.bytes bo).take 19 =
        store bo 1 p.type ++ store bo 2 p.id ++ store bo 4 p.timestamp ++
          store bo 4 p.sensor1 ++ store bo 4 p.sensor2 ++ store bo 4 p.sensor3 ∧
      (p.bytes bo).length = 23 :=
  field_layout7 _ _ _ _ _ _ _ (store_length _ _ _) (store_length _ _ _) (store_length _ _ _)
    (store_length _ _ _) (store_length _ _ _) (store_length _ _ _) (store_length _ _ _)

theorem TelemetryPacket.bytes_is_bytes (bo : ByteOrder) (p : TelemetryPacket) :
    is_bytes (p.bytes bo) := by
  unfold TelemetryPacket.bytes
  repeat' apply is_bytes_append
  all_goals exact store_is_bytes _ _ _

theorem TelemetryPacket.bytes_split (bo : ByteOrder) (p : TelemetryPacket) :
    p.bytes bo = (p.bytes bo).take 19 ++ store bo 4 p.crc32 := by
  rw [(TelemetryPacket.bytes_layout bo p).2.2.2.2.2.2.2.1]
  rfl

/-- The bytes of a response as `send_ack` and `send_nak` build it. -/
theorem response_layout (bo : ByteOrder) (kind packet_id : Nat) :
    (AckPacket.bytes bo
        { type := kind, ack_id := packet_id,
          crc32 := calculate_crc32
            ((AckPacket.bytes bo { type := kind, ack_id := packet_id, crc32 := 0 }).take
              (AckPacket.sizeof - crc32_sizeof)) }) =
      (store bo 1 kind ++ store bo 2 packet_id) ++
        store bo 4 (calculate_crc32 (store bo 1 kind ++ store bo 2 packet_id)) := by
  have h3 : AckPacket.sizeof - crc32_sizeof = 3 := rfl
  have hpre : (AckPacket.bytes bo { type := kind, ack_id := packet_id, crc32 := 0 }).take 3 =
      store bo 1 kind ++ store bo 2 packet_id :=
    (field_layout3 (store bo 1 kind) (store bo 2 packet_id) (store bo 4 0)
      (store_length _ _ _) (store_length _ _ _) (store_length _ _ _)).2.2.2
  rw [h3, hpre]
  rfl

theorem TelemetryClient.send_ack_bytes (bo : ByteOrder) (bytes_sent : Int) (packet_id : Nat) :
    Output.datagrams (send_ack bo bytes_sent packet_id) =
      [(store bo 1 0x02 ++ store bo 2 packet_id) ++
        store bo 4 (calculate_crc32 (store bo 1 0x02 ++ store bo 2 packet_id))] := by
  rw [← response_layout bo 0x02 packet_id]
  unfold send_ack
  split <;> rfl

theorem TelemetryClient.send_nak_bytes (bo : ByteOrder) (bytes_sent : Int) (packet_id : Nat) :
    Output.datagrams (send_nak bo bytes_sent packet_id) =
      [(store bo 1 0x03 ++ store bo 2 packet_id) ++
        store bo 4 (calculate_crc32 (store bo 1 0x03 ++ store bo 2 packet_id))] := by
  rw [← response_layout bo 0x03 packet_id]
  unfold send_nak
  split <;> rfl

theorem response_fields (s1 s2 s3 : List Nat) (h1 : s1.length = 1) (h2 : s2.length = 2)
    (h3 : s3.length = 4) :
    ((s1 ++ s2) ++ s3).length = 7 ∧ field ((s1 ++ s2) ++ s3) 0 1 = s1 ∧
      field ((s1 ++ s2) ++ s3) 1 2 = s2 ∧ field ((s1 ++ s2) ++ s3) 3 4 = s3 ∧
      ((s1 ++ s2) ++ s3).take 3 = s1 ++ s2 := by
  obtain ⟨a, b, c, d⟩ := field_layout3 s1 s2 s3 h1 h2 h3
  refine ⟨?_, a, b, c, d⟩
  simp [h1, h2, h3]

theorem store_one (bo : ByteOrder) (v : Nat) : store bo 1 v = [v % 256] := by
  cases bo <;> rfl

theorem TelemetryServer.sent_is_packet (bo : ByteOrder) (net : Transport)
    (packet : TelemetryPacket) :
    ∀ d ∈ (send_packet_with_retry bo net packet).2.sent, d = packet.bytes bo := by
  obtain ⟨k, _, _, hs⟩ := retry_loop_sent bo net packet MAX_RETRIES SocketLog.empty
  intro d hd
  rw [send_packet_with_retry, hs] at hd
  exact List.eq_of_mem_replicate (by simpa [SocketLog.empty] using hd)

theorem TelemetryServer.generated_crc (bo : ByteOrder) (s : TelemetryServer)
    (ms_count r1 r2 r3 : Nat) :
    (generate_telemetry_packet bo s ms_count r1 r2 r3).1.crc32 =
      calculate_crc32
        (((generate_telemetry_packet bo s ms_count r1 r2 r3).1.bytes bo).take 19) := by
  have h19 : TelemetryPacket.sizeof - crc32_sizeof = 19 := rfl
  simp only [generate_telemetry_packet, h19]
  rw [(TelemetryPacket.bytes_layout bo _).2.2.2.2.2.2.2.1,
    (TelemetryPacket.bytes_layout bo _).2.2.2.2.2.2.2.1]

theorem TelemetryClient.validate_packet_iff (bo : ByteOrder) (c : TelemetryClient)
    (packet : TelemetryPacket) :
    (validate_packet bo c packet).1 = true ↔
      packet.type = 0x01 ∧
        calculate_crc32 ((packet.bytes bo).take 19) = packet.crc32 := by
  have h19 : TelemetryPacket.sizeof - crc32_sizeof = 19 := rfl
  have h1 : PacketType.TELEMETRY.toUInt8 = 1 := rfl
  unfold validate_packet
  rw [h19, h1]
  by_cases hty : packet.type = 1
  · by_cases hcrc : calculate_crc32 ((packet.bytes bo).take 19) = packet.crc32
    · by_cases hdup : packet.id < c.expected_packet_id_ <;> simp [hty, hcrc, hdup]
    · simp [hty, hcrc]
  · simp [hty]

/-- C13 as stated fails on a little-endian host: the producer transmits the
object representation of the packet, so sequence number 5 goes out as the bytes
5, 0 at offsets 1..2, while network byte order would be 0, 5. -/
theorem C13_wire_layout_counterexample :
    (TelemetryServer.send_packet_with_retry ByteOrder.little (scripted [sample_ack])
        sample_packet).2.sent =
        [[1, 5, 0, 232, 3, 0, 0, 3, 0, 0, 0, 4, 0, 0, 0, 5, 0, 0, 0, 173, 145, 200, 42]] ∧
      sample_packet.id = 5 ∧ sample_packet.timestamp = 1000 ∧
      field [1, 5, 0, 232, 3, 0, 0, 3, 0, 0, 0, 4, 0, 0, 0, 5, 0, 0, 0, 173, 145, 200, 42] 1 2 =
        [5, 0] ∧
      be_bytes 2 5 = [0, 5] ∧
      field [1, 5, 0, 232, 3, 0, 0, 3, 0, 0, 0, 4, 0, 0, 0, 5, 0, 0, 0, 173, 145, 200, 42] 3 4 =
        [232, 3, 0, 0] ∧
      be_bytes 4 1000 = [0, 0, 3, 232] ∧
      (∃ d ∈ (TelemetryServer.send_packet_with_retry ByteOrder.little (scripted [sample_ack])
          sample_packet).2.sent, field d 1 2 ≠ be_bytes 2 sample_packet.id) := by
  decide

/-- C13 amended, wire layout: every datagram the producer transmits is exactly
23 bytes without padding (kind at offset 0, sequence at 1..2, timestamp at 3..6,
the three readings at 7..18, checksum at 19..22), and every response built by
the consumer is exactly 7 bytes (kind at 0, `ack_id` at 1..2, checksum of the
first 3 bytes at 3..6); every multi-byte field is written in the byte order of
the host, which is network byte order on a big-endian host and least
significant byte first on a little-endian host. -/
theorem C13_wire_layout (bo : ByteOrder) (net : Transport) (packet : TelemetryPacket)
    (bytes_sent : Int) (packet_id : Nat) :
    (∀ d ∈ (TelemetryServer.send_packet_with_retry bo net packet).2.sent,
        d.length = 23 ∧ field d 0 1 = [packet.type % 256] ∧
          field d 1 2 = store bo 2 packet.id ∧
          field d 3 4 = store bo 4 packet.timestamp ∧
          field d 7 4 = store bo 4 packet.sensor1 ∧
          field d 11 4 = store bo 4 packet.sensor2 ∧
          field d 15 4 = store bo 4 packet.sensor3 ∧
          field d 19 4 = store bo 4 packet.crc32) ∧
      (∀ resp ∈ Output.datagrams (TelemetryClient.send_ack bo bytes_sent packet_id),
        resp.length = 7 ∧ field resp 0 1 = [0x02] ∧ field resp 1 2 = store bo 2 packet_id ∧
          field resp 3 4 = store bo 4 (calculate_crc32 (resp.take 3))) ∧
      (∀ resp ∈ Output.datagrams (TelemetryClient.send_nak bo bytes_sent packet_id),
        resp.length = 7 ∧ field resp 0 1 = [0x03] ∧ field resp 1 2 = store bo 2 packet_id ∧
          field resp 3 4 = store bo 4 (calculate_crc32 (resp.take 3))) ∧
      (∀ width v, store ByteOrder.big width v = be_bytes width v) ∧
      (∀ width v, store ByteOrder.little width v = le_bytes width v) := by
  refine ⟨?_, ?_, ?_, fun _ _ => rfl, fun _ _ => rfl⟩
  · intro d hd
    rw [TelemetryServer.sent_is_packet bo net packet d hd]
    obtain ⟨a1, a2, a3, a4, a5, a6, a7, _, a9⟩ := TelemetryPacket.bytes_layout bo packet
    rw [store_one] at a1
    exact ⟨a9, a1, a2, a3, a4, a5, a6, a7⟩
  · intro resp hr
    rw [TelemetryClient.send_ack_bytes, List.mem_singleton] at hr
    obtain ⟨b0, b1, b2, b3, b4⟩ := response_fields (store bo 1 0x02) (store bo 2 packet_id)
      (store bo 4 (calculate_crc32 (store bo 1 0x02 ++ store bo 2 packet_id)))
      (store_length _ _ _) (store_length _ _ _) (store_length _ _ _)
    rw [hr, b4]
    exact ⟨b0, b1.trans (store_one bo _), b2, b3⟩
  · intro resp hr
    rw [TelemetryClient.send_nak_bytes, List.mem_singleton] at hr
    obtain ⟨b0, b1, b2, b3, b4⟩ := response_fields (store bo 1 0x03) (store bo 2 packet_id)
      (store bo 4 (calculate_crc32 (store bo 1 0x03 ++ store bo 2 packet_id)))
      (store_length _ _ _) (store_length _ _ _) (store_length _ _ _)
    rw [hr, b4]
    exact ⟨b0, b1.trans (store_one bo _), b2, b3⟩

theorem C13_wire_layout_witness :
    field (sample_datagram 5) 1 2 = store ByteOrder.little 2 sample_packet.id :=
  ((C13_wire_layout ByteOrder.little (scripted [sample_ack]) sample_packet 7 5).1
    (sample_datagram 5) (by decide)).2.2.1

/-- C14, checksum coverage: the packet built by `generate_telemetry_packet` is
its first 19 bytes followed by the stored checksum, and that checksum is the
checksum of exactly those 19 bytes; `validate_packet` accepts a DATA packet
exactly when the checksum of the same 19 bytes equals the stored one (for a
received 23-byte datagram these are its first 19 bytes); every response built by
`send_ack` or `send_nak` is its first 3 bytes followed by the checksum of exactly
those 3 bytes; and `wait_for_ack` accepts an ACK for the outstanding id exactly
when the stored checksum equals the checksum of the same 3 bytes. -/
theorem C14_checksum_coverage (bo : ByteOrder) :
    (∀ (s : TelemetryServer) (ms_count r1 r2 r3 : Nat),
        ((TelemetryServer.generate_telemetry_packet bo s ms_count r1 r2 r3).1.bytes bo) =
            ((TelemetryServer.generate_telemetry_packet bo s ms_count r1 r2 r3).1.bytes bo).take
                19 ++
              store bo 4
                (calculate_crc32
                  (((TelemetryServer.generate_telemetry_packet bo s ms_count r1 r2 r3).1.bytes
                    bo).take 19)) ∧
          (((TelemetryServer.generate_telemetry_packet bo s ms_count r1 r2 r3).1.bytes
            bo).take 19).length = 19) ∧
      (∀ (c : TelemetryClient) (packet : TelemetryPacket), packet.type = 0x01 →
        ((TelemetryClient.validate_packet bo c packet).1 = true ↔
          calculate_crc32 ((packet.bytes bo).take 19) = packet.crc32)) ∧
      (∀ data, is_sized data →
        ((TelemetryPacket.ofBytes bo data).bytes bo).take 19 = data.take 19) ∧
      (∀ (bytes_sent : Int) (packet_id : Nat),
        ∀ resp ∈ Output.datagrams (TelemetryClient.send_ack bo bytes_sent packet_id) ++
            Output.datagrams (TelemetryClient.send_nak bo bytes_sent packet_id),
          resp = resp.take 3 ++ store bo 4 (calculate_crc32 (resp.take 3)) ∧
            (resp.take 3).length = 3) ∧
      (∀ (net : Transport) (io : SocketLog) (packet_id : Nat) (data : List Nat),
        0 ≤ net.setsockopt io.sockopts → net.recvfrom io.recvs = Recv.datagram data →
        data.length = 7 → is_bytes data → (AckPacket.ofBytes bo data).ack_id = packet_id →
        (AckPacket.ofBytes bo data).type = 0x02 →
        ((TelemetryServer.wait_for_ack bo net io packet_id).1 = true ↔
          (AckPacket.ofBytes bo data).crc32 = calculate_crc32 (data.take 3))) := by
  refine ⟨?_, ?_, ?_, ?_, ?_⟩
  · intro s ms_count r1 r2 r3
    constructor
    · rw [← TelemetryServer.generated_crc]
      exact TelemetryPacket.bytes_split bo _
    · have := (TelemetryPacket.bytes_layout bo
        (TelemetryServer.generate_telemetry_packet bo s ms_count r1 r2 r3).1).2.2.2.2.2.2.2.2
      rw [List.length_take, this]
      rfl
  · intro c packet hty
    rw [TelemetryClient.validate_packet_iff]
    exact ⟨fun h => h.2, fun h => ⟨hty, h⟩⟩
  · intro data hd
    rw [TelemetryPacket.packet_bytes_ofBytes bo data hd.1 hd.2]
  · intro bytes_sent packet_id resp hr
    rw [TelemetryClient.send_ack_bytes, TelemetryClient.send_nak_bytes] at hr
    have key : ∀ kind : Nat,
        resp = (store bo 1 kind ++ store bo 2 packet_id) ++
          store bo 4 (calculate_crc32 (store bo 1 kind ++ store bo 2 packet_id)) →
        resp = resp.take 3 ++ store bo 4 (calculate_crc32 (resp.take 3)) ∧
          (resp.take 3).length = 3 := by
      intro kind h
      obtain ⟨b0, _, _, _, b4⟩ := response_fields (store bo 1 kind) (store bo 2 packet_id)
        (store bo 4 (calculate_crc32 (store bo 1 kind ++ store bo 2 packet_id)))
        (store_length _ _ _) (store_length _ _ _) (store_length _ _ _)
      rw [← h] at b4 b0
      rw [b4]
      exact ⟨h, by simp [store_length]⟩
    simp only [List.singleton_append, List.mem_cons, List.mem_singleton, List.not_mem_nil,
      or_false] at hr
    rcases hr with h | h
    · exact key _ h
    · exact key _ h
  · intro net io packet_id data hso hr hlen hb hid hty
    have hbytes : ∀ d, net.recvfrom io.recvs = Recv.datagram d → is_bytes d := by
      intro d hd
      rw [hr] at hd
      cases hd
      exact hb
    have htk : data.take 7 = data := List.take_of_length_le (le_of_eq hlen)
    rw [TelemetryServer.wait_for_ack_true_iff bo net io packet_id hbytes]
    constructor
    · rintro ⟨_, d, hd, _, _, hc, _, _⟩
      rw [hr] at hd
      cases hd
      rw [htk] at hc
      exact hc
    · intro hc
      refine ⟨hso, data, hr, ?_⟩
      rw [htk]
      exact ⟨hlen, hb, hc, hty, hid⟩

theorem C14_checksum_coverage_witness :
    (TelemetryServer.wait_for_ack ByteOrder.little (scripted [sample_ack]) SocketLog.empty
        5).1 = true ↔
      (AckPacket.ofBytes ByteOrder.little sample_ack).crc32 =
        calculate_crc32 (sample_ack.take 3) :=
  (C14_checksum_coverage ByteOrder.little).2.2.2.2 (scripted [sample_ack]) SocketLog.empty 5
    sample_ack (by decide) rfl (by decide) (by decide) (by decide) (by decide)

theorem TelemetryServer.wait_for_ack_unarmed (bo : ByteOrder) (net : Transport)
    (io : SocketLog) (packet_id : Nat) (hso : net.setsockopt io.sockopts < 0) :
    (wait_for_ack bo net io packet_id).1 = false := by
  unfold wait_for_ack
  simp [hso]

theorem TelemetryServer.retry_loop_send_failed (bo : ByteOrder) (net : Transport)
    (packet : TelemetryPacket) (n : Nat) (io : SocketLog)
    (h : net.sendto io.sent.length < 0) :
    retry_loop bo net packet (n + 1) io =
      retry_loop bo net packet n ⟨io.sent ++ [packet.bytes bo], io.sockopts, io.recvs⟩ := by
  rw [retry_loop]
  simp only [h, if_true]

/-- C15, send failure consumes one attempt without aborting: an attempt whose
`sendto` fails makes no `setsockopt` and no `recvfrom` call and leaves one
attempt fewer; when every `sendto` fails the result is `false` after exactly 3
`sendto` calls and no receive; when the first `sendto` fails and the second
succeeds and is answered by a valid ACK for the packet, the result is `true`
after 2 `sendto` calls and one receive. -/
theorem C15_send_failure (bo : ByteOrder) (net : Transport) (packet : TelemetryPacket) :
    (∀ (n : Nat) (io : SocketLog), net.sendto io.sent.length < 0 →
        TelemetryServer.retry_loop bo net packet (n + 1) io =
          TelemetryServer.retry_loop bo net packet n
            ⟨io.sent ++ [packet.bytes bo], io.sockopts, io.recvs⟩) ∧
      ((∀ k, net.sendto k < 0) →
        TelemetryServer.send_packet_with_retry bo net packet =
          (false, ⟨[packet.bytes bo, packet.bytes bo, packet.bytes bo], 0, 0⟩)) ∧
      (∀ ack, net.sendto 0 < 0 → 0 ≤ net.sendto 1 → 0 ≤ net.setsockopt 0 →
        net.recvfrom 0 = Recv.datagram ack → is_response bo PacketType.ACK packet.id ack →
        TelemetryServer.send_packet_with_retry bo net packet =
          (true, ⟨[packet.bytes bo, packet.bytes bo], 1, 1⟩)) := by
  refine ⟨fun n io h => TelemetryServer.retry_loop_send_failed bo net packet n io h, ?_, ?_⟩
  · intro hall
    rw [TelemetryServer.send_packet_with_retry, MAX_RETRIES,
      TelemetryServer.retry_loop_send_failed bo net packet 2 _ (hall _),
      TelemetryServer.retry_loop_send_failed bo net packet 1 _ (hall _),
      TelemetryServer.retry_loop_send_failed bo net packet 0 _ (hall _)]
    rfl
  · intro ack h0 h1 hso hr hack
    have hs1 : ¬ net.sendto 1 < 0 := by omega
    have hw := TelemetryServer.wait_for_ack_of_response bo net
      ⟨[packet.bytes bo, packet.bytes bo], 0, 0⟩ PacketType.ACK packet.id ack hso hr hack
    have d1 : decide (PacketType.ACK = PacketType.ACK) = true := rfl
    rw [d1] at hw
    rw [TelemetryServer.send_packet_with_retry, MAX_RETRIES,
      TelemetryServer.retry_loop_send_failed bo net packet 2 SocketLog.empty h0]
    simp only [SocketLog.empty, List.nil_append, TelemetryServer.retry_loop,
      List.length_singleton, hs1, if_false, List.singleton_append, hw]

theorem C15_send_failure_witness :
    TelemetryServer.send_packet_with_retry ByteOrder.little
        ⟨fun _ => -1, fun _ => 0, fun _ => Recv.failed⟩ sample_packet =
      (false, ⟨[sample_packet.bytes ByteOrder.little, sample_packet.bytes ByteOrder.little,
        sample_packet.bytes ByteOrder.little], 0, 0⟩) :=
  (C15_send_failure ByteOrder.little ⟨fun _ => -1, fun _ => 0, fun _ => Recv.failed⟩
    sample_packet).2.1 (fun _ => (by decide : (-1 : Int) < 0))

/-! ## The sink -/

/-- C17, producer sequence numbering: `generate_telemetry_packet` gives the
packet the current value of `packet_counter_` as its id and leaves the counter
at that value plus 1 modulo 65536 (0 after 65535); an iteration of `run` leaves
the counter where `generate_telemetry_packet` left it, whatever
`send_packet_with_retry` returns, so the packet of the following iteration
carries the following sequence number. -/
theorem C17_producer_sequence_numbering (bo : ByteOrder) (s : TelemetryServer)
    (net net2 : Transport) (ms_count r1 r2 r3 ms_count2 q1 q2 q3 : Nat) :
    (TelemetryServer.generate_telemetry_packet bo s ms_count r1 r2 r3).1.id =
        s.packet_counter_ ∧
      (TelemetryServer.generate_telemetry_packet bo s ms_count r1 r2 r3).2.packet_counter_ =
        (s.packet_counter_ + 1) % 65536 ∧
      (TelemetryServer.generate_telemetry_packet bo ⟨65535⟩ ms_count r1 r2 r3).2.packet_counter_ =
        0 ∧
      (TelemetryServer.run_iteration bo s net ms_count r1 r2 r3).1 =
        (TelemetryServer.generate_telemetry_packet bo s ms_count r1 r2 r3).2 ∧
      (TelemetryServer.run_iteration bo s net ms_count r1 r2 r3).2.2 =
        (TelemetryServer.send_packet_with_retry bo net
          (TelemetryServer.generate_telemetry_packet bo s ms_count r1 r2 r3).1).1 ∧
      (TelemetryServer.run_iteration bo s net ms_count r1 r2 r3).2.1.id = s.packet_counter_ ∧
      (TelemetryServer.run_iteration bo
          (TelemetryServer.run_iteration bo s net ms_count r1 r2 r3).1 net2 ms_count2 q1 q2
          q3).2.1.id =
        (s.packet_counter_ + 1) % 65536 := by
  refine ⟨rfl, rfl, rfl, rfl, rfl, rfl, rfl⟩

/-! ## Producer and consumer together -/

theorem TelemetryServer.generated_sized (bo : ByteOrder) (s : TelemetryServer)
    (ms_count r1 r2 r3 : Nat) :
    is_sized ((generate_telemetry_packet bo s ms_count r1 r2 r3).1.bytes bo) :=
  ⟨(TelemetryPacket.bytes_layout bo _).2.2.2.2.2.2.2.2, TelemetryPacket.bytes_is_bytes bo _⟩

theorem TelemetryServer.generated_valid (bo : ByteOrder) (s : TelemetryServer)
    (ms_count r1 r2 r3 : Nat) :
    is_valid bo ((generate_telemetry_packet bo s ms_count r1 r2 r3).1.bytes bo) := by
  obtain ⟨a1, _, _, _, _, _, a7, _, _⟩ :=
    TelemetryPacket.bytes_layout bo (generate_telemetry_packet bo s ms_count r1 r2 r3).1
  have hlt := calculate_crc32_lt _
    (is_bytes_take 19 _ (TelemetryPacket.bytes_is_bytes bo
      (generate_telemetry_packet bo s ms_count r1 r2 r3).1))
  constructor
  · show load bo (field _ 0 1) = _
    rw [a1, load_store]
    rfl
  · show load bo (field _ 19 4) = _
    rw [a7, load_store, generated_crc]
    exact Nat.mod_eq_of_lt (by simpa using hlt)

theorem TelemetryServer.generated_id (bo : ByteOrder) (s : TelemetryServer)
    (ms_count r1 r2 r3 : Nat) (hs : s.packet_counter_ < 65536) :
    (TelemetryPacket.ofBytes bo
        ((generate_telemetry_packet bo s ms_count r1 r2 r3).1.bytes bo)).id =
      (generate_telemetry_packet bo s ms_count r1 r2 r3).1.id := by
  show load bo (field _ 1 2) = _
  rw [(TelemetryPacket.bytes_layout bo _).2.1, load_store]
  exact Nat.mod_eq_of_lt (by simpa [generate_telemetry_packet] using hs)

theorem TelemetryServer.delivered_at_once (bo : ByteOrder) (net : Transport)
    (packet : TelemetryPacket) (data : List Nat)
    (hsend : 0 ≤ net.sendto 0) (hopt : 0 ≤ net.setsockopt 0)
    (hrecv : net.recvfrom 0 = Recv.datagram data)
    (hack : is_response bo PacketType.ACK packet.id data) :
    send_packet_with_retry bo net packet = (true, ⟨[packet.bytes bo], 1, 1⟩) := by
  have hs : ¬ net.sendto 0 < 0 := by omega
  have hw := wait_for_ack_of_response bo net ⟨[packet.bytes bo], 0, 0⟩
    PacketType.ACK packet.id data hopt hrecv hack
  simp only [send_packet_with_retry, MAX_RETRIES, SocketLog.empty, retry_loop, List.length_nil,
    hs, if_false, List.nil_append, hw]
  rfl

theorem TelemetryServer.wait_for_ack_of_nak (bo : ByteOrder) (net : Transport)
    (io : SocketLog) (packet_id : Nat) (data : List Nat)
    (hr : net.recvfrom io.recvs = Recv.datagram data)
    (hnak : is_response bo PacketType.NAK packet_id data) :
    (wait_for_ack bo net io packet_id).1 = false := by
  by_cases hso : net.setsockopt io.sockopts < 0
  · exact wait_for_ack_unarmed bo net io packet_id hso
  · rw [wait_for_ack_of_response bo net io PacketType.NAK packet_id data (by omega) hr hnak]
    rfl

/-- C18, end-to-end delivery over a lossless channel: for a producer whose
counter is a 16-bit value, the packet built by `generate_telemetry_packet`,
received unmodified by a consumer on the same host byte order, passes
`validate_packet` whatever the cursor; the consumer's one reply is the datagram
`send_ack` builds for the packet's id and echoes that id; received unmodified,
this reply makes `wait_for_ack` return `true` and `send_packet_with_retry`
return `true` after exactly one transmission; and the datagram `send_nak` builds
for the same id makes `wait_for_ack` return `false`. -/
theorem C18_end_to_end (bo : ByteOrder) (s : TelemetryServer) (ms_count r1 r2 r3 : Nat)
    (c : TelemetryClient) (stale : List Nat) (bytes_sent : Int) (packet : TelemetryPacket)
    (hs : s.packet_counter_ < 65536)
    (hp : (TelemetryServer.generate_telemetry_packet bo s ms_count r1 r2 r3).1 = packet) :
    (TelemetryClient.validate_packet bo c
        (TelemetryPacket.ofBytes bo (recv_buffer (packet.bytes bo) stale))).1 = true ∧
      ∃ ack nak,
        Output.datagrams (TelemetryClient.send_ack bo bytes_sent packet.id) = [ack] ∧
        Output.datagrams (TelemetryClient.send_nak bo bytes_sent packet.id) = [nak] ∧
        Output.datagrams
            (TelemetryClient.run_iteration bo c
              ⟨Recv.datagram (packet.bytes bo), stale, bytes_sent⟩).2 = [ack] ∧
        (AckPacket.ofBytes bo ack).ack_id = packet.id ∧
        (∀ (net : Transport) (io : SocketLog), 0 ≤ net.setsockopt io.sockopts →
          net.recvfrom io.recvs = Recv.datagram ack →
          (TelemetryServer.wait_for_ack bo net io packet.id).1 = true) ∧
        (∀ net : Transport, 0 ≤ net.sendto 0 → 0 ≤ net.setsockopt 0 →
          net.recvfrom 0 = Recv.datagram ack →
          TelemetryServer.send_packet_with_retry bo net packet =
            (true, ⟨[packet.bytes bo], 1, 1⟩)) ∧
        (∀ (net : Transport) (io : SocketLog), net.recvfrom io.recvs = Recv.datagram nak →
          (TelemetryServer.wait_for_ack bo net io packet.id).1 = false) := by
  subst hp
  have hsz := TelemetryServer.generated_sized bo s ms_count r1 r2 r3
  have hv := TelemetryServer.generated_valid bo s ms_count r1 r2 r3
  have hid := TelemetryServer.generated_id bo s ms_count r1 r2 r3 hs
  have hlt : (TelemetryServer.generate_telemetry_packet bo s ms_count r1 r2 r3).1.id < 2 ^ 16 := by
    simpa [TelemetryServer.generate_telemetry_packet] using hs
  obtain ⟨ack, ha1, ha2⟩ := TelemetryClient.send_ack_datagrams bo bytes_sent _ hlt
  obtain ⟨nak, hn1, hn2⟩ := TelemetryClient.send_nak_datagrams bo bytes_sent _ hlt
  constructor
  · rw [recv_buffer_sized _ stale hsz.1, TelemetryClient.validate_packet_iff,
      TelemetryPacket.packet_bytes_ofBytes bo _ hsz.1 hsz.2]
    exact ⟨hv.1, hv.2.symm⟩
  · refine ⟨ack, nak, ha1, hn1, ?_, ha2.2.2.2.2, ?_, ?_, ?_⟩
    · rw [TelemetryClient.run_iteration_valid bo c _ stale bytes_sent hsz hv, hid,
        Output.datagrams_append]
      have e : Output.datagrams
          (Output.telemetry (TelemetryPacket.ofBytes bo
              ((TelemetryServer.generate_telemetry_packet bo s ms_count r1 r2 r3).1.bytes bo)) ::
            TelemetryClient.send_ack bo bytes_sent
              (TelemetryServer.generate_telemetry_packet bo s ms_count r1 r2 r3).1.id) =
          [ack] := ha1
      rw [e]
      split <;> rfl
    · intro net io hso hr
      rw [TelemetryServer.wait_for_ack_of_response bo net io PacketType.ACK _ ack hso hr ha2]
      rfl
    · intro net h0 hso hr
      exact TelemetryServer.delivered_at_once bo net _ ack h0 hso hr ha2
    · intro net io hr
      exact TelemetryServer.wait_for_ack_of_nak bo net io _ nak hr hn2

theorem C18_end_to_end_witness :
    (TelemetryClient.validate_packet ByteOrder.little ⟨0⟩
        (TelemetryPacket.ofBytes ByteOrder.little
          (recv_buffer (sample_packet.bytes ByteOrder.little) []))).1 = true :=
  (C18_end_to_end ByteOrder.little ⟨5⟩ 1000 3 4 5 ⟨0⟩ [] 7 sample_packet (by decide) rfl).1

end telemetry
